import Mathlib

/-!
A shallow embedding of the CrowdStrike Falcon MCP server's API client
(the `CrowdStrikeClientImpl` class of `src/client.ts`, together with the
credential types of `src/types/env.ts` and the tool schema declarations of
`src/tools/*.ts`).

HTTP is modelled as an oracle: every operation takes as explicit inputs the
current time, the response the OAuth2 token endpoint would give if it were
contacted, and the response the API endpoint would give if it were contacted.
Each operation returns its result (or typed error), the client state after
the call, and the number of network calls actually issued, so that a claim
of the form "no network call happens" is the statement that this counter is
zero.  The outbound payload (URL, query string, JSON request body) only
influences the vendor, which is already an oracle here, so it is not
tracked; parameters that only feed the outbound payload are kept in the
signatures for fidelity but do not affect the modelled outcome.
-/

-- =============================================================================
-- JavaScript semantics helpers
-- =============================================================================

/-- JavaScript truthiness of `a || d` for a possibly-absent string `a`:
the empty string is falsy, so it falls through to the default. -/
def jsOrStr : Option String → String → String
  | some s, d => if s = "" then d else s
  | none, d => d

/-- Value of a maximal leading decimal-digit prefix, `none` when there is no
digit (the `NaN` outcome of `parseInt`). -/
def digitsVal (cs : List Char) : Option Nat :=
  let ds := cs.takeWhile Char.isDigit
  if ds.isEmpty then none
  else some (ds.foldl (fun a c => a * 10 + (c.toNat - 48)) 0)

/-- ASCII whitespace skipped by `parseInt`. -/
def jsWhitespace (c : Char) : Bool :=
  c == ' ' || c == '\t' || c == '\n' || c == '\r'

/-- JavaScript `parseInt(s, 10)`: skip leading whitespace, optional sign,
then the longest digit prefix; `none` models `NaN`. -/
def jsParseInt (s : String) : Option Int :=
  match s.data.dropWhile jsWhitespace with
  | '-' :: rest => (digitsVal rest).map (fun n => -(n : Int))
  | '+' :: rest => (digitsVal rest).map (fun n => (n : Int))
  | rest => (digitsVal rest).map (fun n => (n : Int))

/-- `Response.ok` of the fetch API: status in the inclusive range 200–299. -/
def httpOk (status : Nat) : Bool :=
  200 ≤ status && status ≤ 299

-- =============================================================================
-- Data model (src/types/env.ts, src/client.ts)
-- =============================================================================

/-- Tenant credentials parsed from request headers (`src/types/env.ts`). -/
structure TenantCredentials where
  clientId : String
  clientSecret : String
  baseUrl : Option String
deriving Repr, DecidableEq

/-- Default API base URL (`src/client.ts`). -/
def DEFAULT_BASE_URL : String := "https://api.crowdstrike.com"

/-- The mutable fields of `CrowdStrikeClientImpl`: the credentials and base
URL fixed by the constructor, and the cached access token slot
(`accessToken : string | null`, `tokenExpiry : number`, initially `null`/`0`). -/
structure ClientState where
  credentials : TenantCredentials
  baseUrl : String
  accessToken : Option String
  tokenExpiry : Int
deriving Repr, DecidableEq

/-- `createCrowdStrikeClient` / the `CrowdStrikeClientImpl` constructor:
binds the credentials and resolves the base URL
(`credentials.baseUrl || DEFAULT_BASE_URL`). -/
def createCrowdStrikeClient (credentials : TenantCredentials) : ClientState :=
  { credentials := credentials
    baseUrl := jsOrStr credentials.baseUrl DEFAULT_BASE_URL
    accessToken := none
    tokenExpiry := 0 }

/-- Oracle for the OAuth2 token endpoint: the HTTP status and status text of
the response, and the `access_token` / `expires_in` fields of its JSON body
(read only when the status is a success). -/
structure OAuthHttpResponse where
  status : Nat
  statusText : String
  access_token : String
  expires_in : Int
deriving Repr, DecidableEq

/-- Runtime JSON body of a non-2xx API response, as far as the error
extraction in `request` inspects it: either it fails `JSON.parse`, or it
parsed and may carry an `errors` array (only each entry's `message` field is
ever read, so entries are modelled by those strings) and a top-level
`message` field. -/
inductive ErrorBody where
  | unparsable : ErrorBody
  | parsed (errors : Option (List String)) (message : Option String) : ErrorBody
deriving Repr, DecidableEq

/-- Oracle for one API endpoint call: HTTP status, the
`X-RateLimit-RetryAfter` header, the error body (inspected on non-2xx), and
the decoded JSON body of type `α` (used on 2xx other than 204). -/
structure ApiHttpResponse (α : Type) where
  status : Nat
  retryAfterHeader : Option String
  errorBody : ErrorBody
  body : α
deriving Repr, DecidableEq

-- =============================================================================
-- Error taxonomy (src/utils/errors.ts is not among the sources; shapes are
-- taken from the construction sites in src/client.ts)
-- =============================================================================

/-- The three classified error kinds thrown by the client.  The
`rateLimitError` retry-after field is `Option Int`, with `none` standing for
the JavaScript `NaN` that `parseInt` yields on a digitless header value. -/
inductive CsError where
  | authenticationError (message : String) : CsError
  | rateLimitError (message : String) (retryAfter : Option Int) : CsError
  | apiError (message : String) (status : Nat) : CsError
deriving Repr, DecidableEq

/-- Modelled from the spec: the error class definitions live in
`src/utils/errors.ts`, which is not among the sources; section 7 of the spec
marks `RateLimitError` retryable and describes the other kinds as not
automatically retried. -/
def CsError.retryable : CsError → Bool
  | .rateLimitError _ _ => true
  | _ => false

-- =============================================================================
-- OAuth2 authentication (CrowdStrikeClientImpl.getAccessToken)
-- =============================================================================

/-- The token-exchange arm of `getAccessToken`: POST to `/oauth2/token`
(one network call); on a non-ok status throw `AuthenticationError` with the
status and status text (no state change); on success store the token, set
`tokenExpiry = now + expires_in * 1000`, and return the token. -/
def tokenExchange (st : ClientState) (now : Int) (resp : OAuthHttpResponse) :
    Except CsError (String × ClientState) × Nat :=
  if httpOk resp.status then
    (.ok (resp.access_token,
      { st with accessToken := some resp.access_token
                tokenExpiry := now + resp.expires_in * 1000 }), 1)
  else
    (.error (.authenticationError
      ("OAuth2 authentication failed: " ++ toString resp.status ++ " "
        ++ resp.statusText)), 1)

/-- `getAccessToken`: return the cached token when it is truthy (JavaScript:
the empty string is falsy) and `Date.now() < tokenExpiry - 60000`, with no
network call and no state change; otherwise perform the token exchange. -/
def getAccessToken (st : ClientState) (now : Int) (resp : OAuthHttpResponse) :
    Except CsError (String × ClientState) × Nat :=
  match st.accessToken with
  | some tok =>
      if tok ≠ "" ∧ now < st.tokenExpiry - 60000 then (.ok (tok, st), 0)
      else tokenExchange st now resp
  | none => tokenExchange st now resp

-- =============================================================================
-- HTTP request helper (CrowdStrikeClientImpl.request)
-- =============================================================================

/-- The error-message extraction of `request` for a non-2xx response: if the
body parses and has a non-empty `errors` array, join the entries' `message`
fields with "; "; else a truthy top-level `message`; else the default
`API error: <status>`. -/
def extractErrorMessage (status : Nat) (body : ErrorBody) : String :=
  match body with
  | .unparsable => "API error: " ++ toString status
  | .parsed errors message =>
      if (errors.getD []).length ≠ 0 then
        String.intercalate "; " (errors.getD [])
      else
        match message with
        | some m => if m ≠ "" then m else "API error: " ++ toString status
        | none => "API error: " ++ toString status

/-- The retry-after value of the 429 arm: the `X-RateLimit-RetryAfter`
header parsed with `parseInt` when truthy (the empty string is falsy), else
the default 60. -/
def retryAfterValue (header : Option String) : Option Int :=
  match header with
  | some v => if v ≠ "" then jsParseInt v else some 60
  | none => some 60

/-- The response-classification block of `request` (run after the API fetch,
so the call counter `n` it receives already includes that fetch): 429 throws
`RateLimitError`; 401/403 clear the cached token and throw
`AuthenticationError`; any other non-ok status throws `CrowdStrikeApiError`
with the extracted message; 204 resolves to `undefined` (here `none`);
otherwise the JSON body is returned. -/
def classifyResponse {α : Type} (resp : ApiHttpResponse α)
    (st1 : ClientState) (n : Nat) :
    Except CsError (Option α) × ClientState × Nat :=
  if resp.status = 429 then
    (.error (.rateLimitError "Rate limit exceeded"
      (retryAfterValue resp.retryAfterHeader)), st1, n)
  else if resp.status = 401 ∨ resp.status = 403 then
    (.error (.authenticationError
      "Authentication failed. Check your API credentials."),
      { st1 with accessToken := none }, n)
  else if httpOk resp.status = false then
    (.error (.apiError (extractErrorMessage resp.status resp.errorBody)
      resp.status), st1, n)
  else if resp.status = 204 then
    (.ok none, st1, n)
  else
    (.ok (some resp.body), st1, n)

/-- `request`: obtain a token via `getAccessToken` (propagating its failure
before any API fetch), then issue the API call (one more network call) and
classify the response with `classifyResponse`.  No retry of any kind. -/
def request {α : Type} (st : ClientState) (now : Int)
    (tokResp : OAuthHttpResponse) (resp : ApiHttpResponse α) :
    Except CsError (Option α) × ClientState × Nat :=
  match getAccessToken st now tokResp with
  | (.error e, n) => (.error e, st, n)
  | (.ok (_token, st1), n) => classifyResponse resp st1 (n + 1)

-- =============================================================================
-- Vendor record types (src/types/crowdstrike.ts)
-- =============================================================================

/-- The client's control flow never inspects fields of the decoded vendor
records, so each record type is modelled as an opaque payload named after
the first field of its source interface. -/
structure Host where
  device_id : String
deriving Repr, DecidableEq

structure Detection where
  detection_id : String
deriving Repr, DecidableEq

structure Incident where
  incident_id : String
deriving Repr, DecidableEq

structure IncidentBehavior where
  behavior_id : String
deriving Repr, DecidableEq

structure Alert where
  composite_id : String
deriving Repr, DecidableEq

structure IOC where
  id : String
deriving Repr, DecidableEq

structure IOCCreateInput where
  value : String
deriving Repr, DecidableEq

structure Vulnerability where
  id : String
deriving Repr, DecidableEq

structure HostGroup where
  id : String
deriving Repr, DecidableEq

structure HostGroupCreateInput where
  name : String
deriving Repr, DecidableEq

structure Policy where
  id : String
deriving Repr, DecidableEq

structure RTRSession where
  session_id : String
deriving Repr, DecidableEq

structure RTRCommandResult where
  cloud_request_id : String
deriving Repr, DecidableEq

/-- The vendor response envelope.  The static type in
`src/types/crowdstrike.ts` declares `resources: T[]`, but the operations
guard reads with `response.resources || []`, so at runtime the field can be
absent; it is therefore modelled as optional.  The unused `meta` and
`errors` fields are omitted. -/
structure CrowdStrikeResponse (α : Type) where
  resources : Option (List α)
deriving Repr, DecidableEq

/-- Outcome space of a typed operation: either one of the client's
classified errors propagates, or a JavaScript `TypeError` is raised by a
property access on `undefined` (a 204 response handed to code that reads
`response.resources`, or a missing `resources` array indexed with `[0]`). -/
inductive OpError where
  | api (e : CsError) : OpError
  | jsTypeError : OpError
deriving Repr, DecidableEq

/-- The uniform `{success, message}` acknowledgement every mutation
operation synthesizes locally. -/
structure ActionResult where
  success : Bool
  message : String
deriving Repr, DecidableEq

/-- Query parameters (`QueryParams` in `src/client.ts`).  They only feed the
outbound query string, which is not modelled. -/
structure QueryParams where
  filter : Option String := none
  limit : Option Int := none
  offset : Option Int := none
  sort : Option String := none
  after : Option String := none
deriving Repr, DecidableEq

-- =============================================================================
-- Hosts
-- =============================================================================

/-- `queryHosts`: issue the request and return `response.resources || []`. -/
def queryHosts (st : ClientState) (now : Int) (tokResp : OAuthHttpResponse)
    (apiResp : ApiHttpResponse (CrowdStrikeResponse String))
    (params : Option QueryParams) :
    Except OpError (List String) × ClientState × Nat :=
  match request st now tokResp apiResp with
  | (.error e, st1, n) => (.error (.api e), st1, n)
  | (.ok none, st1, n) => (.error .jsTypeError, st1, n)
  | (.ok (some r), st1, n) => (.ok (r.resources.getD []), st1, n)

/-- `getHosts`: short-circuit to `[]` on an empty id list (no call);
otherwise issue the request and return `response.resources || []`. -/
def getHosts (st : ClientState) (now : Int) (tokResp : OAuthHttpResponse)
    (apiResp : ApiHttpResponse (CrowdStrikeResponse Host))
    (ids : List String) :
    Except OpError (List Host) × ClientState × Nat :=
  if ids.length = 0 then (.ok [], st, 0)
  else
    match request st now tokResp apiResp with
    | (.error e, st1, n) => (.error (.api e), st1, n)
    | (.ok none, st1, n) => (.error .jsTypeError, st1, n)
    | (.ok (some r), st1, n) => (.ok (r.resources.getD []), st1, n)

/-- `containHost`: no empty-id check; issue the request whatever the list
and synthesize the acknowledgement. -/
def containHost (st : ClientState) (now : Int) (tokResp : OAuthHttpResponse)
    (apiResp : ApiHttpResponse Unit) (ids : List String) :
    Except OpError ActionResult × ClientState × Nat :=
  match request st now tokResp apiResp with
  | (.error e, st1, n) => (.error (.api e), st1, n)
  | (.ok _, st1, n) =>
      (.ok { success := true
             message := "Containment initiated for " ++ toString ids.length
               ++ " host(s)" }, st1, n)

/-- `liftContainment`: same shape as `containHost`. -/
def liftContainment (st : ClientState) (now : Int)
    (tokResp : OAuthHttpResponse) (apiResp : ApiHttpResponse Unit)
    (ids : List String) :
    Except OpError ActionResult × ClientState × Nat :=
  match request st now tokResp apiResp with
  | (.error e, st1, n) => (.error (.api e), st1, n)
  | (.ok _, st1, n) =>
      (.ok { success := true
             message := "Containment lifted for " ++ toString ids.length
               ++ " host(s)" }, st1, n)

/-- `hideHost`: same shape as `containHost`. -/
def hideHost (st : ClientState) (now : Int) (tokResp : OAuthHttpResponse)
    (apiResp : ApiHttpResponse Unit) (ids : List String) :
    Except OpError ActionResult × ClientState × Nat :=
  match request st now tokResp apiResp with
  | (.error e, st1, n) => (.error (.api e), st1, n)
  | (.ok _, st1, n) =>
      (.ok { success := true
             message := "Hidden " ++ toString ids.length ++ " host(s)" },
        st1, n)

/-- `unhideHost`: same shape as `containHost`. -/
def unhideHost (st : ClientState) (now : Int) (tokResp : OAuthHttpResponse)
    (apiResp : ApiHttpResponse Unit) (ids : List String) :
    Except OpError ActionResult × ClientState × Nat :=
  match request st now tokResp apiResp with
  | (.error e, st1, n) => (.error (.api e), st1, n)
  | (.ok _, st1, n) =>
      (.ok { success := true
             message := "Unhidden " ++ toString ids.length ++ " host(s)" },
        st1, n)

-- =============================================================================
-- Detections
-- =============================================================================

/-- `queryDetections`. -/
def queryDetections (st : ClientState) (now : Int)
    (tokResp : OAuthHttpResponse)
    (apiResp : ApiHttpResponse (CrowdStrikeResponse String))
    (params : Option QueryParams) :
    Except OpError (List String) × ClientState × Nat :=
  match request st now tokResp apiResp with
  | (.error e, st1, n) => (.error (.api e), st1, n)
  | (.ok none, st1, n) => (.error .jsTypeError, st1, n)
  | (.ok (some r), st1, n) => (.ok (r.resources.getD []), st1, n)

/-- `getDetections`: empty-id short-circuit, then request. -/
def getDetections (st : ClientState) (now : Int)
    (tokResp : OAuthHttpResponse)
    (apiResp : ApiHttpResponse (CrowdStrikeResponse Detection))
    (ids : List String) :
    Except OpError (List Detection) × ClientState × Nat :=
  if ids.length = 0 then (.ok [], st, 0)
  else
    match request st now tokResp apiResp with
    | (.error e, st1, n) => (.error (.api e), st1, n)
    | (.ok none, st1, n) => (.error .jsTypeError, st1, n)
    | (.ok (some r), st1, n) => (.ok (r.resources.getD []), st1, n)

/-- `updateDetectionStatus`: no empty-id check; PATCH then acknowledge. -/
def updateDetectionStatus (st : ClientState) (now : Int)
    (tokResp : OAuthHttpResponse) (apiResp : ApiHttpResponse Unit)
    (ids : List String) (status : String) (assignedToUuid : Option String)
    (comment : Option String) :
    Except OpError ActionResult × ClientState × Nat :=
  match request st now tokResp apiResp with
  | (.error e, st1, n) => (.error (.api e), st1, n)
  | (.ok _, st1, n) =>
      (.ok { success := true
             message := "Updated status to \x27" ++ status ++ "\x27 for "
               ++ toString ids.length ++ " detection(s)" }, st1, n)

-- =============================================================================
-- Incidents
-- =============================================================================

/-- `queryIncidents`. -/
def queryIncidents (st : ClientState) (now : Int)
    (tokResp : OAuthHttpResponse)
    (apiResp : ApiHttpResponse (CrowdStrikeResponse String))
    (params : Option QueryParams) :
    Except OpError (List String) × ClientState × Nat :=
  match request st now tokResp apiResp with
  | (.error e, st1, n) => (.error (.api e), st1, n)
  | (.ok none, st1, n) => (.error .jsTypeError, st1, n)
  | (.ok (some r), st1, n) => (.ok (r.resources.getD []), st1, n)

/-- `getIncidents`: empty-id short-circuit, then request. -/
def getIncidents (st : ClientState) (now : Int)
    (tokResp : OAuthHttpResponse)
    (apiResp : ApiHttpResponse (CrowdStrikeResponse Incident))
    (ids : List String) :
    Except OpError (List Incident) × ClientState × Nat :=
  if ids.length = 0 then (.ok [], st, 0)
  else
    match request st now tokResp apiResp with
    | (.error e, st1, n) => (.error (.api e), st1, n)
    | (.ok none, st1, n) => (.error .jsTypeError, st1, n)
    | (.ok (some r), st1, n) => (.ok (r.resources.getD []), st1, n)

/-- `updateIncident`: no empty-id check; POST then acknowledge. -/
def updateIncident (st : ClientState) (now : Int)
    (tokResp : OAuthHttpResponse) (apiResp : ApiHttpResponse Unit)
    (ids : List String) (action : String) (value : Option String) :
    Except OpError ActionResult × ClientState × Nat :=
  match request st now tokResp apiResp with
  | (.error e, st1, n) => (.error (.api e), st1, n)
  | (.ok _, st1, n) =>
      (.ok { success := true
             message := "Action \x27" ++ action ++ "\x27 applied to "
               ++ toString ids.length ++ " incident(s)" }, st1, n)

/-- `getBehaviors`: empty-id short-circuit, then request. -/
def getBehaviors (st : ClientState) (now : Int)
    (tokResp : OAuthHttpResponse)
    (apiResp : ApiHttpResponse (CrowdStrikeResponse IncidentBehavior))
    (ids : List String) :
    Except OpError (List IncidentBehavior) × ClientState × Nat :=
  if ids.length = 0 then (.ok [], st, 0)
  else
    match request st now tokResp apiResp with
    | (.error e, st1, n) => (.error (.api e), st1, n)
    | (.ok none, st1, n) => (.error .jsTypeError, st1, n)
    | (.ok (some r), st1, n) => (.ok (r.resources.getD []), st1, n)

-- =============================================================================
-- Alerts
-- =============================================================================

/-- `queryAlerts`. -/
def queryAlerts (st : ClientState) (now : Int)
    (tokResp : OAuthHttpResponse)
    (apiResp : ApiHttpResponse (CrowdStrikeResponse String))
    (params : Option QueryParams) :
    Except OpError (List String) × ClientState × Nat :=
  match request st now tokResp apiResp with
  | (.error e, st1, n) => (.error (.api e), st1, n)
  | (.ok none, st1, n) => (.error .jsTypeError, st1, n)
  | (.ok (some r), st1, n) => (.ok (r.resources.getD []), st1, n)

/-- `getAlerts`: empty-id short-circuit, then request. -/
def getAlerts (st : ClientState) (now : Int) (tokResp : OAuthHttpResponse)
    (apiResp : ApiHttpResponse (CrowdStrikeResponse Alert))
    (ids : List String) :
    Except OpError (List Alert) × ClientState × Nat :=
  if ids.length = 0 then (.ok [], st, 0)
  else
    match request st now tokResp apiResp with
    | (.error e, st1, n) => (.error (.api e), st1, n)
    | (.ok none, st1, n) => (.error .jsTypeError, st1, n)
    | (.ok (some r), st1, n) => (.ok (r.resources.getD []), st1, n)

/-- `updateAlerts`: no empty-id check; PATCH then acknowledge. -/
def updateAlerts (st : ClientState) (now : Int)
    (tokResp : OAuthHttpResponse) (apiResp : ApiHttpResponse Unit)
    (ids : List String) (status : Option String)
    (assignedTo : Option String) (comment : Option String) :
    Except OpError ActionResult × ClientState × Nat :=
  match request st now tokResp apiResp with
  | (.error e, st1, n) => (.error (.api e), st1, n)
  | (.ok _, st1, n) =>
      (.ok { success := true
             message := "Updated " ++ toString ids.length ++ " alert(s)" },
        st1, n)

-- =============================================================================
-- IOCs
-- =============================================================================

/-- `queryIOCs`. -/
def queryIOCs (st : ClientState) (now : Int) (tokResp : OAuthHttpResponse)
    (apiResp : ApiHttpResponse (CrowdStrikeResponse String))
    (params : Option QueryParams) :
    Except OpError (List String) × ClientState × Nat :=
  match request st now tokResp apiResp with
  | (.error e, st1, n) => (.error (.api e), st1, n)
  | (.ok none, st1, n) => (.error .jsTypeError, st1, n)
  | (.ok (some r), st1, n) => (.ok (r.resources.getD []), st1, n)

/-- `getIOCs`: empty-id short-circuit, then request. -/
def getIOCs (st : ClientState) (now : Int) (tokResp : OAuthHttpResponse)
    (apiResp : ApiHttpResponse (CrowdStrikeResponse IOC))
    (ids : List String) :
    Except OpError (List IOC) × ClientState × Nat :=
  if ids.length = 0 then (.ok [], st, 0)
  else
    match request st now tokResp apiResp with
    | (.error e, st1, n) => (.error (.api e), st1, n)
    | (.ok none, st1, n) => (.error .jsTypeError, st1, n)
    | (.ok (some r), st1, n) => (.ok (r.resources.getD []), st1, n)

/-- `createIOC`: POST the indicator and return `response.resources[0]`
unchecked — a present-but-empty `resources` array yields the JavaScript
`undefined` (here `none`); an absent array raises a `TypeError`, as does a
204 response (`undefined.resources`). -/
def createIOC (st : ClientState) (now : Int) (tokResp : OAuthHttpResponse)
    (apiResp : ApiHttpResponse (CrowdStrikeResponse IOC))
    (input : IOCCreateInput) :
    Except OpError (Option IOC) × ClientState × Nat :=
  match request st now tokResp apiResp with
  | (.error e, st1, n) => (.error (.api e), st1, n)
  | (.ok none, st1, n) => (.error .jsTypeError, st1, n)
  | (.ok (some r), st1, n) =>
      match r.resources with
      | none => (.error .jsTypeError, st1, n)
      | some l => (.ok l.head?, st1, n)

/-- `updateIOC`: PATCH, then `response.resources[0]` unchecked, as in
`createIOC`. -/
def updateIOC (st : ClientState) (now : Int) (tokResp : OAuthHttpResponse)
    (apiResp : ApiHttpResponse (CrowdStrikeResponse IOC))
    (id : String) (input : IOCCreateInput) :
    Except OpError (Option IOC) × ClientState × Nat :=
  match request st now tokResp apiResp with
  | (.error e, st1, n) => (.error (.api e), st1, n)
  | (.ok none, st1, n) => (.error .jsTypeError, st1, n)
  | (.ok (some r), st1, n) =>
      match r.resources with
      | none => (.error .jsTypeError, st1, n)
      | some l => (.ok l.head?, st1, n)

/-- `deleteIOCs`: no empty-id check; DELETE then acknowledge. -/
def deleteIOCs (st : ClientState) (now : Int) (tokResp : OAuthHttpResponse)
    (apiResp : ApiHttpResponse Unit) (ids : List String) :
    Except OpError ActionResult × ClientState × Nat :=
  match request st now tokResp apiResp with
  | (.error e, st1, n) => (.error (.api e), st1, n)
  | (.ok _, st1, n) =>
      (.ok { success := true
             message := "Deleted " ++ toString ids.length ++ " IOC(s)" },
        st1, n)

-- =============================================================================
-- Spotlight Vulnerabilities
-- =============================================================================

/-- `queryVulnerabilities`: the filter is a required argument of the client
method; it is set on the query string unconditionally and no local check is
performed here. -/
def queryVulnerabilities (st : ClientState) (now : Int)
    (tokResp : OAuthHttpResponse)
    (apiResp : ApiHttpResponse (CrowdStrikeResponse String))
    (filter : String) (params : Option QueryParams) :
    Except OpError (List String) × ClientState × Nat :=
  match request st now tokResp apiResp with
  | (.error e, st1, n) => (.error (.api e), st1, n)
  | (.ok none, st1, n) => (.error .jsTypeError, st1, n)
  | (.ok (some r), st1, n) => (.ok (r.resources.getD []), st1, n)

/-- `getVulnerabilities`: empty-id short-circuit, then request. -/
def getVulnerabilities (st : ClientState) (now : Int)
    (tokResp : OAuthHttpResponse)
    (apiResp : ApiHttpResponse (CrowdStrikeResponse Vulnerability))
    (ids : List String) :
    Except OpError (List Vulnerability) × ClientState × Nat :=
  if ids.length = 0 then (.ok [], st, 0)
  else
    match request st now tokResp apiResp with
    | (.error e, st1, n) => (.error (.api e), st1, n)
    | (.ok none, st1, n) => (.error .jsTypeError, st1, n)
    | (.ok (some r), st1, n) => (.ok (r.resources.getD []), st1, n)

-- =============================================================================
-- Host Groups
-- =============================================================================

/-- `queryHostGroups`. -/
def queryHostGroups (st : ClientState) (now : Int)
    (tokResp : OAuthHttpResponse)
    (apiResp : ApiHttpResponse (CrowdStrikeResponse String))
    (params : Option QueryParams) :
    Except OpError (List String) × ClientState × Nat :=
  match request st now tokResp apiResp with
  | (.error e, st1, n) => (.error (.api e), st1, n)
  | (.ok none, st1, n) => (.error .jsTypeError, st1, n)
  | (.ok (some r), st1, n) => (.ok (r.resources.getD []), st1, n)

/-- `getHostGroups`: empty-id short-circuit, then request. -/
def getHostGroups (st : ClientState) (now : Int)
    (tokResp : OAuthHttpResponse)
    (apiResp : ApiHttpResponse (CrowdStrikeResponse HostGroup))
    (ids : List String) :
    Except OpError (List HostGroup) × ClientState × Nat :=
  if ids.length = 0 then (.ok [], st, 0)
  else
    match request st now tokResp apiResp with
    | (.error e, st1, n) => (.error (.api e), st1, n)
    | (.ok none, st1, n) => (.error .jsTypeError, st1, n)
    | (.ok (some r), st1, n) => (.ok (r.resources.getD []), st1, n)

/-- `createHostGroup`: POST then `response.resources[0]` unchecked, as in
`createIOC`. -/
def createHostGroup (st : ClientState) (now : Int)
    (tokResp : OAuthHttpResponse)
    (apiResp : ApiHttpResponse (CrowdStrikeResponse HostGroup))
    (input : HostGroupCreateInput) :
    Except OpError (Option HostGroup) × ClientState × Nat :=
  match request st now tokResp apiResp with
  | (.error e, st1, n) => (.error (.api e), st1, n)
  | (.ok none, st1, n) => (.error .jsTypeError, st1, n)
  | (.ok (some r), st1, n) =>
      match r.resources with
      | none => (.error .jsTypeError, st1, n)
      | some l => (.ok l.head?, st1, n)

/-- `updateHostGroup`: PATCH then `response.resources[0]` unchecked. -/
def updateHostGroup (st : ClientState) (now : Int)
    (tokResp : OAuthHttpResponse)
    (apiResp : ApiHttpResponse (CrowdStrikeResponse HostGroup))
    (id : String) (input : HostGroupCreateInput) :
    Except OpError (Option HostGroup) × ClientState × Nat :=
  match request st now tokResp apiResp with
  | (.error e, st1, n) => (.error (.api e), st1, n)
  | (.ok none, st1, n) => (.error .jsTypeError, st1, n)
  | (.ok (some r), st1, n) =>
      match r.resources with
      | none => (.error .jsTypeError, st1, n)
      | some l => (.ok l.head?, st1, n)

/-- `deleteHostGroups`: no empty-id check; DELETE then acknowledge. -/
def deleteHostGroups (st : ClientState) (now : Int)
    (tokResp : OAuthHttpResponse) (apiResp : ApiHttpResponse Unit)
    (ids : List String) :
    Except OpError ActionResult × ClientState × Nat :=
  match request st now tokResp apiResp with
  | (.error e, st1, n) => (.error (.api e), st1, n)
  | (.ok _, st1, n) =>
      (.ok { success := true
             message := "Deleted " ++ toString ids.length
               ++ " host group(s)" }, st1, n)

/-- `addHostsToGroup`: no empty-id check on the host list; POST the group
action then acknowledge. -/
def addHostsToGroup (st : ClientState) (now : Int)
    (tokResp : OAuthHttpResponse) (apiResp : ApiHttpResponse Unit)
    (groupId : String) (hostIds : List String) :
    Except OpError ActionResult × ClientState × Nat :=
  match request st now tokResp apiResp with
  | (.error e, st1, n) => (.error (.api e), st1, n)
  | (.ok _, st1, n) =>
      (.ok { success := true
             message := "Added " ++ toString hostIds.length
               ++ " host(s) to group" }, st1, n)

/-- `removeHostsFromGroup`: no empty-id check on the host list; POST the
group action then acknowledge. -/
def removeHostsFromGroup (st : ClientState) (now : Int)
    (tokResp : OAuthHttpResponse) (apiResp : ApiHttpResponse Unit)
    (groupId : String) (hostIds : List String) :
    Except OpError ActionResult × ClientState × Nat :=
  match request st now tokResp apiResp with
  | (.error e, st1, n) => (.error (.api e), st1, n)
  | (.ok _, st1, n) =>
      (.ok { success := true
             message := "Removed " ++ toString hostIds.length
               ++ " host(s) from group" }, st1, n)

-- =============================================================================
-- Policies (Prevention, Device Control, Sensor Update)
-- =============================================================================

/-- `queryPreventionPolicies`. -/
def queryPreventionPolicies (st : ClientState) (now : Int)
    (tokResp : OAuthHttpResponse)
    (apiResp : ApiHttpResponse (CrowdStrikeResponse String))
    (params : Option QueryParams) :
    Except OpError (List String) × ClientState × Nat :=
  match request st now tokResp apiResp with
  | (.error e, st1, n) => (.error (.api e), st1, n)
  | (.ok none, st1, n) => (.error .jsTypeError, st1, n)
  | (.ok (some r), st1, n) => (.ok (r.resources.getD []), st1, n)

/-- `getPreventionPolicies`: empty-id short-circuit, then request. -/
def getPreventionPolicies (st : ClientState) (now : Int)
    (tokResp : OAuthHttpResponse)
    (apiResp : ApiHttpResponse (CrowdStrikeResponse Policy))
    (ids : List String) :
    Except OpError (List Policy) × ClientState × Nat :=
  if ids.length = 0 then (.ok [], st, 0)
  else
    match request st now tokResp apiResp with
    | (.error e, st1, n) => (.error (.api e), st1, n)
    | (.ok none, st1, n) => (.error .jsTypeError, st1, n)
    | (.ok (some r), st1, n) => (.ok (r.resources.getD []), st1, n)

/-- `queryDeviceControlPolicies`. -/
def queryDeviceControlPolicies (st : ClientState) (now : Int)
    (tokResp : OAuthHttpResponse)
    (apiResp : ApiHttpResponse (CrowdStrikeResponse String))
    (params : Option QueryParams) :
    Except OpError (List String) × ClientState × Nat :=
  match request st now tokResp apiResp with
  | (.error e, st1, n) => (.error (.api e), st1, n)
  | (.ok none, st1, n) => (.error .jsTypeError, st1, n)
  | (.ok (some r), st1, n) => (.ok (r.resources.getD []), st1, n)

/-- `getDeviceControlPolicies`: empty-id short-circuit, then request. -/
def getDeviceControlPolicies (st : ClientState) (now : Int)
    (tokResp : OAuthHttpResponse)
    (apiResp : ApiHttpResponse (CrowdStrikeResponse Policy))
    (ids : List String) :
    Except OpError (List Policy) × ClientState × Nat :=
  if ids.length = 0 then (.ok [], st, 0)
  else
    match request st now tokResp apiResp with
    | (.error e, st1, n) => (.error (.api e), st1, n)
    | (.ok none, st1, n) => (.error .jsTypeError, st1, n)
    | (.ok (some r), st1, n) => (.ok (r.resources.getD []), st1, n)

/-- `querySensorUpdatePolicies`. -/
def querySensorUpdatePolicies (st : ClientState) (now : Int)
    (tokResp : OAuthHttpResponse)
    (apiResp : ApiHttpResponse (CrowdStrikeResponse String))
    (params : Option QueryParams) :
    Except OpError (List String) × ClientState × Nat :=
  match request st now tokResp apiResp with
  | (.error e, st1, n) => (.error (.api e), st1, n)
  | (.ok none, st1, n) => (.error .jsTypeError, st1, n)
  | (.ok (some r), st1, n) => (.ok (r.resources.getD []), st1, n)

/-- `getSensorUpdatePolicies`: empty-id short-circuit, then request. -/
def getSensorUpdatePolicies (st : ClientState) (now : Int)
    (tokResp : OAuthHttpResponse)
    (apiResp : ApiHttpResponse (CrowdStrikeResponse Policy))
    (ids : List String) :
    Except OpError (List Policy) × ClientState × Nat :=
  if ids.length = 0 then (.ok [], st, 0)
  else
    match request st now tokResp apiResp with
    | (.error e, st1, n) => (.error (.api e), st1, n)
    | (.ok none, st1, n) => (.error .jsTypeError, st1, n)
    | (.ok (some r), st1, n) => (.ok (r.resources.getD []), st1, n)

-- =============================================================================
-- Real-Time Response
-- =============================================================================

/-- `initRTRSession`: POST then `response.resources[0]` unchecked, as in
`createIOC`. -/
def initRTRSession (st : ClientState) (now : Int)
    (tokResp : OAuthHttpResponse)
    (apiResp : ApiHttpResponse (CrowdStrikeResponse RTRSession))
    (deviceId : String) (queueOffline : Bool) :
    Except OpError (Option RTRSession) × ClientState × Nat :=
  match request st now tokResp apiResp with
  | (.error e, st1, n) => (.error (.api e), st1, n)
  | (.ok none, st1, n) => (.error .jsTypeError, st1, n)
  | (.ok (some r), st1, n) =>
      match r.resources with
      | none => (.error .jsTypeError, st1, n)
      | some l => (.ok l.head?, st1, n)

/-- `executeRTRCommand`: POST then `response.resources[0]` unchecked. -/
def executeRTRCommand (st : ClientState) (now : Int)
    (tokResp : OAuthHttpResponse)
    (apiResp : ApiHttpResponse (CrowdStrikeResponse RTRCommandResult))
    (sessionId : String) (baseCommand : String) (commandString : String) :
    Except OpError (Option RTRCommandResult) × ClientState × Nat :=
  match request st now tokResp apiResp with
  | (.error e, st1, n) => (.error (.api e), st1, n)
  | (.ok none, st1, n) => (.error .jsTypeError, st1, n)
  | (.ok (some r), st1, n) =>
      match r.resources with
      | none => (.error .jsTypeError, st1, n)
      | some l => (.ok l.head?, st1, n)

/-- `executeRTRActiveResponderCommand`: POST then `response.resources[0]`
unchecked. -/
def executeRTRActiveResponderCommand (st : ClientState) (now : Int)
    (tokResp : OAuthHttpResponse)
    (apiResp : ApiHttpResponse (CrowdStrikeResponse RTRCommandResult))
    (sessionId : String) (baseCommand : String) (commandString : String) :
    Except OpError (Option RTRCommandResult) × ClientState × Nat :=
  match request st now tokResp apiResp with
  | (.error e, st1, n) => (.error (.api e), st1, n)
  | (.ok none, st1, n) => (.error .jsTypeError, st1, n)
  | (.ok (some r), st1, n) =>
      match r.resources with
      | none => (.error .jsTypeError, st1, n)
      | some l => (.ok l.head?, st1, n)

/-- `deleteRTRSession`: DELETE then acknowledge. -/
def deleteRTRSession (st : ClientState) (now : Int)
    (tokResp : OAuthHttpResponse) (apiResp : ApiHttpResponse Unit)
    (sessionId : String) :
    Except OpError ActionResult × ClientState × Nat :=
  match request st now tokResp apiResp with
  | (.error e, st1, n) => (.error (.api e), st1, n)
  | (.ok _, st1, n) =>
      (.ok { success := true, message := "Session deleted" }, st1, n)

-- =============================================================================
-- Tool-layer filter schemas (src/tools/*.ts)
-- =============================================================================

/-- The query-tool families registered in `src/tools`. -/
inductive QueryFamily where
  | hosts | detections | incidents | alerts | iocs | vulnerabilities
  | hostGroups | preventionPolicies | deviceControlPolicies
  | sensorUpdatePolicies
deriving Repr, DecidableEq

/-- The `filter` parameter requiredness declared by each query tool's zod
schema: `z.string()` (required) only in
`src/tools/vulnerabilities.ts`; `z.string().optional()` everywhere else. -/
def filterRequired : QueryFamily → Bool
  | .vulnerabilities => true
  | _ => false

/-- Modelled from the spec: schema validation of tool arguments is done by
the MCP SDK (an external collaborator, not in the sources) before the tool
handler runs; per spec section 7, a missing required parameter is a local
validation failure raised before any network call. -/
inductive ToolError where
  | validation : ToolError
  | op (e : OpError) : ToolError
deriving Repr, DecidableEq

/-- The `crowdstrike_query_vulnerabilities` tool: its zod schema declares
`filter` required, so an invocation without it fails validation before the
handler (and hence before any client/network activity); with a filter the
handler calls `client.queryVulnerabilities(filter, ...)`. -/
def queryVulnerabilitiesTool (st : ClientState) (now : Int)
    (tokResp : OAuthHttpResponse)
    (apiResp : ApiHttpResponse (CrowdStrikeResponse String))
    (filter : Option String) (params : Option QueryParams) :
    Except ToolError (List String) × ClientState × Nat :=
  match filter with
  | none => (.error .validation, st, 0)
  | some f =>
      match queryVulnerabilities st now tokResp apiResp f params with
      | (.error e, st1, n) => (.error (.op e), st1, n)
      | (.ok v, st1, n) => (.ok v, st1, n)

/-- The `crowdstrike_query_hosts` tool: its zod schema declares `filter`
optional, so an absent filter is passed through to the client query. -/
def queryHostsTool (st : ClientState) (now : Int)
    (tokResp : OAuthHttpResponse)
    (apiResp : ApiHttpResponse (CrowdStrikeResponse String))
    (filter : Option String) (params : Option QueryParams) :
    Except ToolError (List String) × ClientState × Nat :=
  match queryHosts st now tokResp apiResp
      (some { (params.getD {}) with filter := filter }) with
  | (.error e, st1, n) => (.error (.op e), st1, n)
  | (.ok v, st1, n) => (.ok v, st1, n)

-- =============================================================================
-- Concrete fixtures for witnesses and counterexamples
-- =============================================================================

/-- The end-to-end scenario credentials of spec section 8. -/
def creds0 : TenantCredentials :=
  { clientId := "a", clientSecret := "b", baseUrl := none }

/-- A freshly constructed client. -/
def client0 : ClientState := createCrowdStrikeClient creds0

/-- A client holding a cached token valid until epoch-ms 400000. -/
def clientTok : ClientState :=
  { client0 with accessToken := some "tok1", tokenExpiry := 400000 }

/-- A successful token-exchange response. -/
def oauthOk : OAuthHttpResponse :=
  { status := 200, statusText := "OK", access_token := "tok1"
    expires_in := 300 }

/-- A failed token-exchange response. -/
def oauthBad : OAuthHttpResponse :=
  { status := 403, statusText := "Forbidden", access_token := ""
    expires_in := 0 }

/-- A plain 200 response with an ignored body. -/
def api200Unit : ApiHttpResponse Unit :=
  { status := 200, retryAfterHeader := none, errorBody := .unparsable
    body := () }

/-- A 401 response. -/
def api401Unit : ApiHttpResponse Unit :=
  { status := 401, retryAfterHeader := none, errorBody := .unparsable
    body := () }

/-- A 429 response carrying `X-RateLimit-RetryAfter: 30`. -/
def api429Unit : ApiHttpResponse Unit :=
  { status := 429, retryAfterHeader := some "30", errorBody := .unparsable
    body := () }

/-- A 400 response whose body is the two-entry errors envelope of spec
section 8. -/
def api400Unit : ApiHttpResponse Unit :=
  { status := 400, retryAfterHeader := none
    errorBody := .parsed (some ["bad filter", "bad sort"]) none
    body := () }

/-- A 200 IOC envelope whose `resources` array is present but empty. -/
def apiEmptyIOC : ApiHttpResponse (CrowdStrikeResponse IOC) :=
  { status := 200, retryAfterHeader := none, errorBody := .unparsable
    body := { resources := some [] } }

/-- A 200 host-group envelope whose `resources` array is empty. -/
def apiEmptyHostGroup : ApiHttpResponse (CrowdStrikeResponse HostGroup) :=
  { status := 200, retryAfterHeader := none, errorBody := .unparsable
    body := { resources := some [] } }

/-- A 200 RTR-session envelope whose `resources` array is empty. -/
def apiEmptyRTRSession : ApiHttpResponse (CrowdStrikeResponse RTRSession) :=
  { status := 200, retryAfterHeader := none, errorBody := .unparsable
    body := { resources := some [] } }

/-- A 200 RTR-command envelope whose `resources` array is empty. -/
def apiEmptyRTRCommand :
    ApiHttpResponse (CrowdStrikeResponse RTRCommandResult) :=
  { status := 200, retryAfterHeader := none, errorBody := .unparsable
    body := { resources := some [] } }

/-- A 200 id-list envelope. -/
def apiIdsEnv : ApiHttpResponse (CrowdStrikeResponse String) :=
  { status := 200, retryAfterHeader := none, errorBody := .unparsable
    body := { resources := some ["d1", "d2"] } }

/-- An IOC creation input fixture. -/
def input0 : IOCCreateInput := { value := "198.51.100.1" }

/-- A host-group creation input fixture. -/
def hgInput0 : HostGroupCreateInput := { name := "g" }

/-- The client-state fields outside the access-token slot are untouched:
`st'` agrees with `st` on the credentials and the resolved base URL. -/
def preservesIdentity (st st' : ClientState) : Prop :=
  st'.credentials = st.credentials ∧ st'.baseUrl = st.baseUrl

-- =============================================================================
-- Shared helper lemmas
-- =============================================================================

/-- A token exchange always issues exactly one network call. -/
theorem tokenExchange_count (st : ClientState) (now : Int)
    (r : OAuthHttpResponse) : (tokenExchange st now r).2 = 1 := by
  unfold tokenExchange
  split <;> rfl

/-- Characterization of a successful token exchange. -/
theorem tokenExchange_ok (st : ClientState) (now : Int)
    (r : OAuthHttpResponse) (h : httpOk r.status = true) :
    tokenExchange st now r =
      (.ok (r.access_token,
        { st with accessToken := some r.access_token
                  tokenExpiry := now + r.expires_in * 1000 }), 1) := by
  unfold tokenExchange
  rw [if_pos h]

/-- Characterization of a failed token exchange. -/
theorem tokenExchange_err (st : ClientState) (now : Int)
    (r : OAuthHttpResponse) (h : httpOk r.status = false) :
    tokenExchange st now r =
      (.error (.authenticationError
        ("OAuth2 authentication failed: " ++ toString r.status ++ " "
          ++ r.statusText)), 1) := by
  unfold tokenExchange
  rw [if_neg (by simp [h])]

/-- Cache hit: a truthy cached token before the 60-second boundary is
returned as-is, with no call and no state change. -/
theorem getAccessToken_hit (st : ClientState) (now : Int)
    (r : OAuthHttpResponse) (tok : String) (hA : st.accessToken = some tok)
    (ht : tok ≠ "") (hb : now < st.tokenExpiry - 60000) :
    getAccessToken st now r = (.ok (tok, st), 0) := by
  unfold getAccessToken
  rw [hA]
  exact if_pos ⟨ht, hb⟩

/-- Cache miss (no cached token): `getAccessToken` is the token exchange. -/
theorem getAccessToken_miss_none (st : ClientState) (now : Int)
    (r : OAuthHttpResponse) (hA : st.accessToken = none) :
    getAccessToken st now r = tokenExchange st now r := by
  unfold getAccessToken
  rw [hA]

/-- Cache miss (boundary reached): `getAccessToken` is the token
exchange. -/
theorem getAccessToken_miss_expired (st : ClientState) (now : Int)
    (r : OAuthHttpResponse) (tok : String) (hA : st.accessToken = some tok)
    (hb : st.tokenExpiry - 60000 ≤ now) :
    getAccessToken st now r = tokenExchange st now r := by
  unfold getAccessToken
  rw [hA]
  exact if_neg (fun hc => absurd hc.2 (not_lt.mpr hb))

/-- Cache miss (falsy cached token): `getAccessToken` is the token
exchange. -/
theorem getAccessToken_miss_empty (st : ClientState) (now : Int)
    (r : OAuthHttpResponse) (hA : st.accessToken = some "") :
    getAccessToken st now r = tokenExchange st now r := by
  unfold getAccessToken
  rw [hA]
  exact if_neg (fun hc => hc.1 rfl)

/-- `getAccessToken` that errors has performed exactly one network call. -/
theorem getAccessToken_error_count (st : ClientState) (now : Int)
    (r : OAuthHttpResponse) (e : CsError)
    (h : (getAccessToken st now r).1 = .error e) :
    (getAccessToken st now r).2 = 1 := by
  rcases hA : st.accessToken with _ | tok
  · rw [getAccessToken_miss_none st now r hA]
    exact tokenExchange_count ..
  · by_cases ht : tok = ""
    · subst ht
      rw [getAccessToken_miss_empty st now r hA]
      exact tokenExchange_count ..
    · by_cases hb : now < st.tokenExpiry - 60000
      · rw [getAccessToken_hit st now r tok hA ht hb] at h
        exact Except.noConfusion h
      · rw [getAccessToken_miss_expired st now r tok hA (le_of_not_lt hb)]
        exact tokenExchange_count ..

/-- A successful `getAccessToken` never touches the credential and base-URL
fields. -/
theorem getAccessToken_ok_preserves (st : ClientState) (now : Int)
    (r : OAuthHttpResponse) (p : String × ClientState)
    (h : (getAccessToken st now r).1 = .ok p) :
    p.2.credentials = st.credentials ∧ p.2.baseUrl = st.baseUrl := by
  have hX : ∀ hx : (tokenExchange st now r).1 = .ok p,
      p.2.credentials = st.credentials ∧ p.2.baseUrl = st.baseUrl := by
    intro hx
    by_cases hok : httpOk r.status = true
    · rw [tokenExchange_ok st now r hok] at hx
      cases hx
      exact ⟨rfl, rfl⟩
    · rw [tokenExchange_err st now r (by simpa using hok)] at hx
      exact Except.noConfusion hx
  rcases hA : st.accessToken with _ | tok
  · rw [getAccessToken_miss_none st now r hA] at h
    exact hX h
  · by_cases ht : tok = ""
    · subst ht
      rw [getAccessToken_miss_empty st now r hA] at h
      exact hX h
    · by_cases hb : now < st.tokenExpiry - 60000
      · rw [getAccessToken_hit st now r tok hA ht hb] at h
        cases h
        exact ⟨rfl, rfl⟩
      · rw [getAccessToken_miss_expired st now r tok hA (le_of_not_lt hb)]
          at h
        exact hX h

/-- `request` when the token step fails: the failure propagates and no API
fetch happens. -/
theorem request_token_err {α : Type} (st : ClientState) (now : Int)
    (tokResp : OAuthHttpResponse) (resp : ApiHttpResponse α) (e : CsError)
    (n : Nat) (hA : getAccessToken st now tokResp = (.error e, n)) :
    request st now tokResp resp = (.error e, st, n) := by
  unfold request
  rw [hA]

/-- `request` when the token step succeeds: the API fetch happens and the
response is classified. -/
theorem request_token_ok {α : Type} (st : ClientState) (now : Int)
    (tokResp : OAuthHttpResponse) (resp : ApiHttpResponse α) (tok : String)
    (st1 : ClientState) (n : Nat)
    (hA : getAccessToken st now tokResp = (.ok (tok, st1), n)) :
    request st now tokResp resp = classifyResponse resp st1 (n + 1) := by
  unfold request
  rw [hA]

/-- `request` always issues at least one network call. -/
theorem request_count_pos {α : Type} (st : ClientState) (now : Int)
    (tokResp : OAuthHttpResponse) (resp : ApiHttpResponse α) :
    1 ≤ (request st now tokResp resp).2.2 := by
  rcases hA : getAccessToken st now tokResp with ⟨res, n⟩
  cases res with
  | error e =>
      have h1 : (getAccessToken st now tokResp).2 = 1 :=
        getAccessToken_error_count st now tokResp e (by rw [hA])
      rw [hA] at h1
      have h2 : n = 1 := h1
      rw [request_token_err st now tokResp resp e n hA]
      show 1 ≤ n
      omega
  | ok p =>
      rw [request_token_ok st now tokResp resp p.1 p.2 n (by rw [hA])]
      unfold classifyResponse
      split
      · exact Nat.le_add_left 1 n
      · split
        · exact Nat.le_add_left 1 n
        · split
          · exact Nat.le_add_left 1 n
          · split
            · exact Nat.le_add_left 1 n
            · exact Nat.le_add_left 1 n

/-- `classifyResponse` never touches the credential and base-URL fields. -/
theorem classifyResponse_preserves {α : Type} (resp : ApiHttpResponse α)
    (st1 : ClientState) (n : Nat) :
    ((classifyResponse resp st1 n).2.1).credentials = st1.credentials ∧
    ((classifyResponse resp st1 n).2.1).baseUrl = st1.baseUrl := by
  unfold classifyResponse
  split
  · exact ⟨rfl, rfl⟩
  · split
    · exact ⟨rfl, rfl⟩
    · split
      · exact ⟨rfl, rfl⟩
      · split
        · exact ⟨rfl, rfl⟩
        · exact ⟨rfl, rfl⟩

/-- `request` never touches the credential and base-URL fields of the
client state. -/
theorem request_preserves {α : Type} (st : ClientState) (now : Int)
    (tokResp : OAuthHttpResponse) (resp : ApiHttpResponse α) :
    ((request st now tokResp resp).2.1).credentials = st.credentials ∧
    ((request st now tokResp resp).2.1).baseUrl = st.baseUrl := by
  rcases hA : getAccessToken st now tokResp with ⟨res, n⟩
  cases res with
  | error e =>
      rw [request_token_err st now tokResp resp e n hA]
      exact ⟨rfl, rfl⟩
  | ok p =>
      rw [request_token_ok st now tokResp resp p.1 p.2 n (by rw [hA])]
      have hp : p.2.credentials = st.credentials ∧ p.2.baseUrl = st.baseUrl :=
        getAccessToken_ok_preserves st now tokResp p (by rw [hA])
      have hc := classifyResponse_preserves resp p.2 (n + 1)
      exact ⟨hc.1.trans hp.1, hc.2.trans hp.2⟩

-- =============================================================================
-- Per-operation run lemmas: each operation's state-and-counter component is
-- that of the underlying `request` (or the untouched input state for the
-- empty-id short circuit of the get operations)
-- =============================================================================

/-- `containHost` delegates state and call counter to `request`. -/
theorem containHost_run (st : ClientState) (now : Int)
    (tr : OAuthHttpResponse) (ar : ApiHttpResponse Unit)
    (ids : List String) :
    (containHost st now tr ar ids).2 = (request st now tr ar).2 := by
  unfold containHost
  rcases hr : request st now tr ar with ⟨res, st1, n⟩
  rcases res with e | x <;> rfl

/-- `liftContainment` delegates state and call counter to `request`. -/
theorem liftContainment_run (st : ClientState) (now : Int)
    (tr : OAuthHttpResponse) (ar : ApiHttpResponse Unit)
    (ids : List String) :
    (liftContainment st now tr ar ids).2 = (request st now tr ar).2 := by
  unfold liftContainment
  rcases hr : request st now tr ar with ⟨res, st1, n⟩
  rcases res with e | x <;> rfl

/-- `hideHost` delegates state and call counter to `request`. -/
theorem hideHost_run (st : ClientState) (now : Int)
    (tr : OAuthHttpResponse) (ar : ApiHttpResponse Unit)
    (ids : List String) :
    (hideHost st now tr ar ids).2 = (request st now tr ar).2 := by
  unfold hideHost
  rcases hr : request st now tr ar with ⟨res, st1, n⟩
  rcases res with e | x <;> rfl

/-- `unhideHost` delegates state and call counter to `request`. -/
theorem unhideHost_run (st : ClientState) (now : Int)
    (tr : OAuthHttpResponse) (ar : ApiHttpResponse Unit)
    (ids : List String) :
    (unhideHost st now tr ar ids).2 = (request st now tr ar).2 := by
  unfold unhideHost
  rcases hr : request st now tr ar with ⟨res, st1, n⟩
  rcases res with e | x <;> rfl

/-- `updateDetectionStatus` delegates state and call counter to `request`. -/
theorem updateDetectionStatus_run (st : ClientState) (now : Int)
    (tr : OAuthHttpResponse) (ar : ApiHttpResponse Unit)
    (ids : List String) (status : String)
    (assignedToUuid : Option String) (comment : Option String) :
    (updateDetectionStatus st now tr ar ids status assignedToUuid comment).2 = (request st now tr ar).2 := by
  unfold updateDetectionStatus
  rcases hr : request st now tr ar with ⟨res, st1, n⟩
  rcases res with e | x <;> rfl

/-- `updateIncident` delegates state and call counter to `request`. -/
theorem updateIncident_run (st : ClientState) (now : Int)
    (tr : OAuthHttpResponse) (ar : ApiHttpResponse Unit)
    (ids : List String) (action : String) (value : Option String) :
    (updateIncident st now tr ar ids action value).2 = (request st now tr ar).2 := by
  unfold updateIncident
  rcases hr : request st now tr ar with ⟨res, st1, n⟩
  rcases res with e | x <;> rfl

/-- `updateAlerts` delegates state and call counter to `request`. -/
theorem updateAlerts_run (st : ClientState) (now : Int)
    (tr : OAuthHttpResponse) (ar : ApiHttpResponse Unit)
    (ids : List String) (status : Option String)
    (assignedTo : Option String) (comment : Option String) :
    (updateAlerts st now tr ar ids status assignedTo comment).2 = (request st now tr ar).2 := by
  unfold updateAlerts
  rcases hr : request st now tr ar with ⟨res, st1, n⟩
  rcases res with e | x <;> rfl

/-- `deleteIOCs` delegates state and call counter to `request`. -/
theorem deleteIOCs_run (st : ClientState) (now : Int)
    (tr : OAuthHttpResponse) (ar : ApiHttpResponse Unit)
    (ids : List String) :
    (deleteIOCs st now tr ar ids).2 = (request st now tr ar).2 := by
  unfold deleteIOCs
  rcases hr : request st now tr ar with ⟨res, st1, n⟩
  rcases res with e | x <;> rfl

/-- `deleteHostGroups` delegates state and call counter to `request`. -/
theorem deleteHostGroups_run (st : ClientState) (now : Int)
    (tr : OAuthHttpResponse) (ar : ApiHttpResponse Unit)
    (ids : List String) :
    (deleteHostGroups st now tr ar ids).2 = (request st now tr ar).2 := by
  unfold deleteHostGroups
  rcases hr : request st now tr ar with ⟨res, st1, n⟩
  rcases res with e | x <;> rfl

/-- `addHostsToGroup` delegates state and call counter to `request`. -/
theorem addHostsToGroup_run (st : ClientState) (now : Int)
    (tr : OAuthHttpResponse) (ar : ApiHttpResponse Unit)
    (groupId : String) (hostIds : List String) :
    (addHostsToGroup st now tr ar groupId hostIds).2 = (request st now tr ar).2 := by
  unfold addHostsToGroup
  rcases hr : request st now tr ar with ⟨res, st1, n⟩
  rcases res with e | x <;> rfl

/-- `removeHostsFromGroup` delegates state and call counter to `request`. -/
theorem removeHostsFromGroup_run (st : ClientState) (now : Int)
    (tr : OAuthHttpResponse) (ar : ApiHttpResponse Unit)
    (groupId : String) (hostIds : List String) :
    (removeHostsFromGroup st now tr ar groupId hostIds).2 = (request st now tr ar).2 := by
  unfold removeHostsFromGroup
  rcases hr : request st now tr ar with ⟨res, st1, n⟩
  rcases res with e | x <;> rfl

/-- `deleteRTRSession` delegates state and call counter to `request`. -/
theorem deleteRTRSession_run (st : ClientState) (now : Int)
    (tr : OAuthHttpResponse) (ar : ApiHttpResponse Unit)
    (sessionId : String) :
    (deleteRTRSession st now tr ar sessionId).2 = (request st now tr ar).2 := by
  unfold deleteRTRSession
  rcases hr : request st now tr ar with ⟨res, st1, n⟩
  rcases res with e | x <;> rfl

/-- `queryHosts` delegates state and call counter to `request`. -/
theorem queryHosts_run (st : ClientState) (now : Int)
    (tr : OAuthHttpResponse) (ar : ApiHttpResponse (CrowdStrikeResponse String))
    (params : Option QueryParams) :
    (queryHosts st now tr ar params).2 = (request st now tr ar).2 := by
  unfold queryHosts
  rcases hr : request st now tr ar with ⟨res, st1, n⟩
  rcases res with e | x
  · rfl
  · rcases x with _ | r <;> rfl

/-- `queryDetections` delegates state and call counter to `request`. -/
theorem queryDetections_run (st : ClientState) (now : Int)
    (tr : OAuthHttpResponse) (ar : ApiHttpResponse (CrowdStrikeResponse String))
    (params : Option QueryParams) :
    (queryDetections st now tr ar params).2 = (request st now tr ar).2 := by
  unfold queryDetections
  rcases hr : request st now tr ar with ⟨res, st1, n⟩
  rcases res with e | x
  · rfl
  · rcases x with _ | r <;> rfl

/-- `queryIncidents` delegates state and call counter to `request`. -/
theorem queryIncidents_run (st : ClientState) (now : Int)
    (tr : OAuthHttpResponse) (ar : ApiHttpResponse (CrowdStrikeResponse String))
    (params : Option QueryParams) :
    (queryIncidents st now tr ar params).2 = (request st now tr ar).2 := by
  unfold queryIncidents
  rcases hr : request st now tr ar with ⟨res, st1, n⟩
  rcases res with e | x
  · rfl
  · rcases x with _ | r <;> rfl

/-- `queryAlerts` delegates state and call counter to `request`. -/
theorem queryAlerts_run (st : ClientState) (now : Int)
    (tr : OAuthHttpResponse) (ar : ApiHttpResponse (CrowdStrikeResponse String))
    (params : Option QueryParams) :
    (queryAlerts st now tr ar params).2 = (request st now tr ar).2 := by
  unfold queryAlerts
  rcases hr : request st now tr ar with ⟨res, st1, n⟩
  rcases res with e | x
  · rfl
  · rcases x with _ | r <;> rfl

/-- `queryIOCs` delegates state and call counter to `request`. -/
theorem queryIOCs_run (st : ClientState) (now : Int)
    (tr : OAuthHttpResponse) (ar : ApiHttpResponse (CrowdStrikeResponse String))
    (params : Option QueryParams) :
    (queryIOCs st now tr ar params).2 = (request st now tr ar).2 := by
  unfold queryIOCs
  rcases hr : request st now tr ar with ⟨res, st1, n⟩
  rcases res with e | x
  · rfl
  · rcases x with _ | r <;> rfl

/-- `queryVulnerabilities` delegates state and call counter to `request`. -/
theorem queryVulnerabilities_run (st : ClientState) (now : Int)
    (tr : OAuthHttpResponse) (ar : ApiHttpResponse (CrowdStrikeResponse String))
    (filter : String) (params : Option QueryParams) :
    (queryVulnerabilities st now tr ar filter params).2 = (request st now tr ar).2 := by
  unfold queryVulnerabilities
  rcases hr : request st now tr ar with ⟨res, st1, n⟩
  rcases res with e | x
  · rfl
  · rcases x with _ | r <;> rfl

/-- `queryHostGroups` delegates state and call counter to `request`. -/
theorem queryHostGroups_run (st : ClientState) (now : Int)
    (tr : OAuthHttpResponse) (ar : ApiHttpResponse (CrowdStrikeResponse String))
    (params : Option QueryParams) :
    (queryHostGroups st now tr ar params).2 = (request st now tr ar).2 := by
  unfold queryHostGroups
  rcases hr : request st now tr ar with ⟨res, st1, n⟩
  rcases res with e | x
  · rfl
  · rcases x with _ | r <;> rfl

/-- `queryPreventionPolicies` delegates state and call counter to `request`. -/
theorem queryPreventionPolicies_run (st : ClientState) (now : Int)
    (tr : OAuthHttpResponse) (ar : ApiHttpResponse (CrowdStrikeResponse String))
    (params : Option QueryParams) :
    (queryPreventionPolicies st now tr ar params).2 = (request st now tr ar).2 := by
  unfold queryPreventionPolicies
  rcases hr : request st now tr ar with ⟨res, st1, n⟩
  rcases res with e | x
  · rfl
  · rcases x with _ | r <;> rfl

/-- `queryDeviceControlPolicies` delegates state and call counter to `request`. -/
theorem queryDeviceControlPolicies_run (st : ClientState) (now : Int)
    (tr : OAuthHttpResponse) (ar : ApiHttpResponse (CrowdStrikeResponse String))
    (params : Option QueryParams) :
    (queryDeviceControlPolicies st now tr ar params).2 = (request st now tr ar).2 := by
  unfold queryDeviceControlPolicies
  rcases hr : request st now tr ar with ⟨res, st1, n⟩
  rcases res with e | x
  · rfl
  · rcases x with _ | r <;> rfl

/-- `querySensorUpdatePolicies` delegates state and call counter to `request`. -/
theorem querySensorUpdatePolicies_run (st : ClientState) (now : Int)
    (tr : OAuthHttpResponse) (ar : ApiHttpResponse (CrowdStrikeResponse String))
    (params : Option QueryParams) :
    (querySensorUpdatePolicies st now tr ar params).2 = (request st now tr ar).2 := by
  unfold querySensorUpdatePolicies
  rcases hr : request st now tr ar with ⟨res, st1, n⟩
  rcases res with e | x
  · rfl
  · rcases x with _ | r <;> rfl

/-- `createIOC` delegates state and call counter to `request`. -/
theorem createIOC_run (st : ClientState) (now : Int)
    (tr : OAuthHttpResponse) (ar : ApiHttpResponse (CrowdStrikeResponse IOC))
    (input : IOCCreateInput) :
    (createIOC st now tr ar input).2 = (request st now tr ar).2 := by
  unfold createIOC
  rcases hr : request st now tr ar with ⟨res, st1, n⟩
  rcases res with e | x
  · rfl
  · rcases x with _ | r
    · rfl
    · rcases r with ⟨rs⟩
      rcases rs with _ | l <;> rfl

/-- `updateIOC` delegates state and call counter to `request`. -/
theorem updateIOC_run (st : ClientState) (now : Int)
    (tr : OAuthHttpResponse) (ar : ApiHttpResponse (CrowdStrikeResponse IOC))
    (id : String) (input : IOCCreateInput) :
    (updateIOC st now tr ar id input).2 = (request st now tr ar).2 := by
  unfold updateIOC
  rcases hr : request st now tr ar with ⟨res, st1, n⟩
  rcases res with e | x
  · rfl
  · rcases x with _ | r
    · rfl
    · rcases r with ⟨rs⟩
      rcases rs with _ | l <;> rfl

/-- `createHostGroup` delegates state and call counter to `request`. -/
theorem createHostGroup_run (st : ClientState) (now : Int)
    (tr : OAuthHttpResponse) (ar : ApiHttpResponse (CrowdStrikeResponse HostGroup))
    (input : HostGroupCreateInput) :
    (createHostGroup st now tr ar input).2 = (request st now tr ar).2 := by
  unfold createHostGroup
  rcases hr : request st now tr ar with ⟨res, st1, n⟩
  rcases res with e | x
  · rfl
  · rcases x with _ | r
    · rfl
    · rcases r with ⟨rs⟩
      rcases rs with _ | l <;> rfl

/-- `updateHostGroup` delegates state and call counter to `request`. -/
theorem updateHostGroup_run (st : ClientState) (now : Int)
    (tr : OAuthHttpResponse) (ar : ApiHttpResponse (CrowdStrikeResponse HostGroup))
    (id : String) (input : HostGroupCreateInput) :
    (updateHostGroup st now tr ar id input).2 = (request st now tr ar).2 := by
  unfold updateHostGroup
  rcases hr : request st now tr ar with ⟨res, st1, n⟩
  rcases res with e | x
  · rfl
  · rcases x with _ | r
    · rfl
    · rcases r with ⟨rs⟩
      rcases rs with _ | l <;> rfl

/-- `initRTRSession` delegates state and call counter to `request`. -/
theorem initRTRSession_run (st : ClientState) (now : Int)
    (tr : OAuthHttpResponse) (ar : ApiHttpResponse (CrowdStrikeResponse RTRSession))
    (deviceId : String) (queueOffline : Bool) :
    (initRTRSession st now tr ar deviceId queueOffline).2 = (request st now tr ar).2 := by
  unfold initRTRSession
  rcases hr : request st now tr ar with ⟨res, st1, n⟩
  rcases res with e | x
  · rfl
  · rcases x with _ | r
    · rfl
    · rcases r with ⟨rs⟩
      rcases rs with _ | l <;> rfl

/-- `executeRTRCommand` delegates state and call counter to `request`. -/
theorem executeRTRCommand_run (st : ClientState) (now : Int)
    (tr : OAuthHttpResponse) (ar : ApiHttpResponse (CrowdStrikeResponse RTRCommandResult))
    (sessionId : String) (baseCommand : String)
    (commandString : String) :
    (executeRTRCommand st now tr ar sessionId baseCommand commandString).2 = (request st now tr ar).2 := by
  unfold executeRTRCommand
  rcases hr : request st now tr ar with ⟨res, st1, n⟩
  rcases res with e | x
  · rfl
  · rcases x with _ | r
    · rfl
    · rcases r with ⟨rs⟩
      rcases rs with _ | l <;> rfl

/-- `executeRTRActiveResponderCommand` delegates state and call counter to `request`. -/
theorem executeRTRActiveResponderCommand_run (st : ClientState) (now : Int)
    (tr : OAuthHttpResponse) (ar : ApiHttpResponse (CrowdStrikeResponse RTRCommandResult))
    (sessionId : String) (baseCommand : String)
    (commandString : String) :
    (executeRTRActiveResponderCommand st now tr ar sessionId baseCommand commandString).2 = (request st now tr ar).2 := by
  unfold executeRTRActiveResponderCommand
  rcases hr : request st now tr ar with ⟨res, st1, n⟩
  rcases res with e | x
  · rfl
  · rcases x with _ | r
    · rfl
    · rcases r with ⟨rs⟩
      rcases rs with _ | l <;> rfl

/-- `getHosts` short-circuits on an empty id list and otherwise delegates
state and call counter to `request`. -/
theorem getHosts_run (st : ClientState) (now : Int)
    (tr : OAuthHttpResponse) (ar : ApiHttpResponse (CrowdStrikeResponse Host))
    (ids : List String) :
    (getHosts st now tr ar ids).2 =
      if ids.length = 0 then ((st, 0) : ClientState × Nat)
      else (request st now tr ar).2 := by
  unfold getHosts
  by_cases h : ids.length = 0
  · rw [if_pos h, if_pos h]
  · rw [if_neg h, if_neg h]
    rcases hr : request st now tr ar with ⟨res, st1, n⟩
    rcases res with e | x
    · rfl
    · rcases x with _ | r <;> rfl

/-- `getDetections` short-circuits on an empty id list and otherwise delegates
state and call counter to `request`. -/
theorem getDetections_run (st : ClientState) (now : Int)
    (tr : OAuthHttpResponse) (ar : ApiHttpResponse (CrowdStrikeResponse Detection))
    (ids : List String) :
    (getDetections st now tr ar ids).2 =
      if ids.length = 0 then ((st, 0) : ClientState × Nat)
      else (request st now tr ar).2 := by
  unfold getDetections
  by_cases h : ids.length = 0
  · rw [if_pos h, if_pos h]
  · rw [if_neg h, if_neg h]
    rcases hr : request st now tr ar with ⟨res, st1, n⟩
    rcases res with e | x
    · rfl
    · rcases x with _ | r <;> rfl

/-- `getIncidents` short-circuits on an empty id list and otherwise delegates
state and call counter to `request`. -/
theorem getIncidents_run (st : ClientState) (now : Int)
    (tr : OAuthHttpResponse) (ar : ApiHttpResponse (CrowdStrikeResponse Incident))
    (ids : List String) :
    (getIncidents st now tr ar ids).2 =
      if ids.length = 0 then ((st, 0) : ClientState × Nat)
      else (request st now tr ar).2 := by
  unfold getIncidents
  by_cases h : ids.length = 0
  · rw [if_pos h, if_pos h]
  · rw [if_neg h, if_neg h]
    rcases hr : request st now tr ar with ⟨res, st1, n⟩
    rcases res with e | x
    · rfl
    · rcases x with _ | r <;> rfl

/-- `getBehaviors` short-circuits on an empty id list and otherwise delegates
state and call counter to `request`. -/
theorem getBehaviors_run (st : ClientState) (now : Int)
    (tr : OAuthHttpResponse) (ar : ApiHttpResponse (CrowdStrikeResponse IncidentBehavior))
    (ids : List String) :
    (getBehaviors st now tr ar ids).2 =
      if ids.length = 0 then ((st, 0) : ClientState × Nat)
      else (request st now tr ar).2 := by
  unfold getBehaviors
  by_cases h : ids.length = 0
  · rw [if_pos h, if_pos h]
  · rw [if_neg h, if_neg h]
    rcases hr : request st now tr ar with ⟨res, st1, n⟩
    rcases res with e | x
    · rfl
    · rcases x with _ | r <;> rfl

/-- `getAlerts` short-circuits on an empty id list and otherwise delegates
state and call counter to `request`. -/
theorem getAlerts_run (st : ClientState) (now : Int)
    (tr : OAuthHttpResponse) (ar : ApiHttpResponse (CrowdStrikeResponse Alert))
    (ids : List String) :
    (getAlerts st now tr ar ids).2 =
      if ids.length = 0 then ((st, 0) : ClientState × Nat)
      else (request st now tr ar).2 := by
  unfold getAlerts
  by_cases h : ids.length = 0
  · rw [if_pos h, if_pos h]
  · rw [if_neg h, if_neg h]
    rcases hr : request st now tr ar with ⟨res, st1, n⟩
    rcases res with e | x
    · rfl
    · rcases x with _ | r <;> rfl

/-- `getIOCs` short-circuits on an empty id list and otherwise delegates
state and call counter to `request`. -/
theorem getIOCs_run (st : ClientState) (now : Int)
    (tr : OAuthHttpResponse) (ar : ApiHttpResponse (CrowdStrikeResponse IOC))
    (ids : List String) :
    (getIOCs st now tr ar ids).2 =
      if ids.length = 0 then ((st, 0) : ClientState × Nat)
      else (request st now tr ar).2 := by
  unfold getIOCs
  by_cases h : ids.length = 0
  · rw [if_pos h, if_pos h]
  · rw [if_neg h, if_neg h]
    rcases hr : request st now tr ar with ⟨res, st1, n⟩
    rcases res with e | x
    · rfl
    · rcases x with _ | r <;> rfl

/-- `getVulnerabilities` short-circuits on an empty id list and otherwise delegates
state and call counter to `request`. -/
theorem getVulnerabilities_run (st : ClientState) (now : Int)
    (tr : OAuthHttpResponse) (ar : ApiHttpResponse (CrowdStrikeResponse Vulnerability))
    (ids : List String) :
    (getVulnerabilities st now tr ar ids).2 =
      if ids.length = 0 then ((st, 0) : ClientState × Nat)
      else (request st now tr ar).2 := by
  unfold getVulnerabilities
  by_cases h : ids.length = 0
  · rw [if_pos h, if_pos h]
  · rw [if_neg h, if_neg h]
    rcases hr : request st now tr ar with ⟨res, st1, n⟩
    rcases res with e | x
    · rfl
    · rcases x with _ | r <;> rfl

/-- `getHostGroups` short-circuits on an empty id list and otherwise delegates
state and call counter to `request`. -/
theorem getHostGroups_run (st : ClientState) (now : Int)
    (tr : OAuthHttpResponse) (ar : ApiHttpResponse (CrowdStrikeResponse HostGroup))
    (ids : List String) :
    (getHostGroups st now tr ar ids).2 =
      if ids.length = 0 then ((st, 0) : ClientState × Nat)
      else (request st now tr ar).2 := by
  unfold getHostGroups
  by_cases h : ids.length = 0
  · rw [if_pos h, if_pos h]
  · rw [if_neg h, if_neg h]
    rcases hr : request st now tr ar with ⟨res, st1, n⟩
    rcases res with e | x
    · rfl
    · rcases x with _ | r <;> rfl

/-- `getPreventionPolicies` short-circuits on an empty id list and otherwise delegates
state and call counter to `request`. -/
theorem getPreventionPolicies_run (st : ClientState) (now : Int)
    (tr : OAuthHttpResponse) (ar : ApiHttpResponse (CrowdStrikeResponse Policy))
    (ids : List String) :
    (getPreventionPolicies st now tr ar ids).2 =
      if ids.length = 0 then ((st, 0) : ClientState × Nat)
      else (request st now tr ar).2 := by
  unfold getPreventionPolicies
  by_cases h : ids.length = 0
  · rw [if_pos h, if_pos h]
  · rw [if_neg h, if_neg h]
    rcases hr : request st now tr ar with ⟨res, st1, n⟩
    rcases res with e | x
    · rfl
    · rcases x with _ | r <;> rfl

/-- `getDeviceControlPolicies` short-circuits on an empty id list and otherwise delegates
state and call counter to `request`. -/
theorem getDeviceControlPolicies_run (st : ClientState) (now : Int)
    (tr : OAuthHttpResponse) (ar : ApiHttpResponse (CrowdStrikeResponse Policy))
    (ids : List String) :
    (getDeviceControlPolicies st now tr ar ids).2 =
      if ids.length = 0 then ((st, 0) : ClientState × Nat)
      else (request st now tr ar).2 := by
  unfold getDeviceControlPolicies
  by_cases h : ids.length = 0
  · rw [if_pos h, if_pos h]
  · rw [if_neg h, if_neg h]
    rcases hr : request st now tr ar with ⟨res, st1, n⟩
    rcases res with e | x
    · rfl
    · rcases x with _ | r <;> rfl

/-- `getSensorUpdatePolicies` short-circuits on an empty id list and otherwise delegates
state and call counter to `request`. -/
theorem getSensorUpdatePolicies_run (st : ClientState) (now : Int)
    (tr : OAuthHttpResponse) (ar : ApiHttpResponse (CrowdStrikeResponse Policy))
    (ids : List String) :
    (getSensorUpdatePolicies st now tr ar ids).2 =
      if ids.length = 0 then ((st, 0) : ClientState × Nat)
      else (request st now tr ar).2 := by
  unfold getSensorUpdatePolicies
  by_cases h : ids.length = 0
  · rw [if_pos h, if_pos h]
  · rw [if_neg h, if_neg h]
    rcases hr : request st now tr ar with ⟨res, st1, n⟩
    rcases res with e | x
    · rfl
    · rcases x with _ | r <;> rfl

-- =============================================================================
-- Per-mutation acknowledgement lemmas: a resolved mutation always carries
-- success = true (failure is signalled only by a thrown error)
-- =============================================================================

/-- A resolved `containHost` acknowledgement has `success = true`. -/
theorem containHost_ack (st : ClientState) (now : Int)
    (tr : OAuthHttpResponse) (ar : ApiHttpResponse Unit)
    (ids : List String) (v : ActionResult)
    (h : (containHost st now tr ar ids).1 = .ok v) : v.success = true := by
  unfold containHost at h
  rcases hr : request st now tr ar with ⟨res, st1, n⟩
  rw [hr] at h
  rcases res with e | x
  · exact Except.noConfusion h
  · have h3 := Except.ok.inj h
    subst h3
    rfl

/-- A resolved `liftContainment` acknowledgement has `success = true`. -/
theorem liftContainment_ack (st : ClientState) (now : Int)
    (tr : OAuthHttpResponse) (ar : ApiHttpResponse Unit)
    (ids : List String) (v : ActionResult)
    (h : (liftContainment st now tr ar ids).1 = .ok v) : v.success = true := by
  unfold liftContainment at h
  rcases hr : request st now tr ar with ⟨res, st1, n⟩
  rw [hr] at h
  rcases res with e | x
  · exact Except.noConfusion h
  · have h3 := Except.ok.inj h
    subst h3
    rfl

/-- A resolved `hideHost` acknowledgement has `success = true`. -/
theorem hideHost_ack (st : ClientState) (now : Int)
    (tr : OAuthHttpResponse) (ar : ApiHttpResponse Unit)
    (ids : List String) (v : ActionResult)
    (h : (hideHost st now tr ar ids).1 = .ok v) : v.success = true := by
  unfold hideHost at h
  rcases hr : request st now tr ar with ⟨res, st1, n⟩
  rw [hr] at h
  rcases res with e | x
  · exact Except.noConfusion h
  · have h3 := Except.ok.inj h
    subst h3
    rfl

/-- A resolved `unhideHost` acknowledgement has `success = true`. -/
theorem unhideHost_ack (st : ClientState) (now : Int)
    (tr : OAuthHttpResponse) (ar : ApiHttpResponse Unit)
    (ids : List String) (v : ActionResult)
    (h : (unhideHost st now tr ar ids).1 = .ok v) : v.success = true := by
  unfold unhideHost at h
  rcases hr : request st now tr ar with ⟨res, st1, n⟩
  rw [hr] at h
  rcases res with e | x
  · exact Except.noConfusion h
  · have h3 := Except.ok.inj h
    subst h3
    rfl

/-- A resolved `updateDetectionStatus` acknowledgement has `success = true`. -/
theorem updateDetectionStatus_ack (st : ClientState) (now : Int)
    (tr : OAuthHttpResponse) (ar : ApiHttpResponse Unit)
    (ids : List String) (status : String)
    (assignedToUuid : Option String) (comment : Option String) (v : ActionResult)
    (h : (updateDetectionStatus st now tr ar ids status assignedToUuid comment).1 = .ok v) : v.success = true := by
  unfold updateDetectionStatus at h
  rcases hr : request st now tr ar with ⟨res, st1, n⟩
  rw [hr] at h
  rcases res with e | x
  · exact Except.noConfusion h
  · have h3 := Except.ok.inj h
    subst h3
    rfl

/-- A resolved `updateIncident` acknowledgement has `success = true`. -/
theorem updateIncident_ack (st : ClientState) (now : Int)
    (tr : OAuthHttpResponse) (ar : ApiHttpResponse Unit)
    (ids : List String) (action : String) (value : Option String) (v : ActionResult)
    (h : (updateIncident st now tr ar ids action value).1 = .ok v) : v.success = true := by
  unfold updateIncident at h
  rcases hr : request st now tr ar with ⟨res, st1, n⟩
  rw [hr] at h
  rcases res with e | x
  · exact Except.noConfusion h
  · have h3 := Except.ok.inj h
    subst h3
    rfl

/-- A resolved `updateAlerts` acknowledgement has `success = true`. -/
theorem updateAlerts_ack (st : ClientState) (now : Int)
    (tr : OAuthHttpResponse) (ar : ApiHttpResponse Unit)
    (ids : List String) (status : Option String)
    (assignedTo : Option String) (comment : Option String) (v : ActionResult)
    (h : (updateAlerts st now tr ar ids status assignedTo comment).1 = .ok v) : v.success = true := by
  unfold updateAlerts at h
  rcases hr : request st now tr ar with ⟨res, st1, n⟩
  rw [hr] at h
  rcases res with e | x
  · exact Except.noConfusion h
  · have h3 := Except.ok.inj h
    subst h3
    rfl

/-- A resolved `deleteIOCs` acknowledgement has `success = true`. -/
theorem deleteIOCs_ack (st : ClientState) (now : Int)
    (tr : OAuthHttpResponse) (ar : ApiHttpResponse Unit)
    (ids : List String) (v : ActionResult)
    (h : (deleteIOCs st now tr ar ids).1 = .ok v) : v.success = true := by
  unfold deleteIOCs at h
  rcases hr : request st now tr ar with ⟨res, st1, n⟩
  rw [hr] at h
  rcases res with e | x
  · exact Except.noConfusion h
  · have h3 := Except.ok.inj h
    subst h3
    rfl

/-- A resolved `deleteHostGroups` acknowledgement has `success = true`. -/
theorem deleteHostGroups_ack (st : ClientState) (now : Int)
    (tr : OAuthHttpResponse) (ar : ApiHttpResponse Unit)
    (ids : List String) (v : ActionResult)
    (h : (deleteHostGroups st now tr ar ids).1 = .ok v) : v.success = true := by
  unfold deleteHostGroups at h
  rcases hr : request st now tr ar with ⟨res, st1, n⟩
  rw [hr] at h
  rcases res with e | x
  · exact Except.noConfusion h
  · have h3 := Except.ok.inj h
    subst h3
    rfl

/-- A resolved `addHostsToGroup` acknowledgement has `success = true`. -/
theorem addHostsToGroup_ack (st : ClientState) (now : Int)
    (tr : OAuthHttpResponse) (ar : ApiHttpResponse Unit)
    (groupId : String) (hostIds : List String) (v : ActionResult)
    (h : (addHostsToGroup st now tr ar groupId hostIds).1 = .ok v) : v.success = true := by
  unfold addHostsToGroup at h
  rcases hr : request st now tr ar with ⟨res, st1, n⟩
  rw [hr] at h
  rcases res with e | x
  · exact Except.noConfusion h
  · have h3 := Except.ok.inj h
    subst h3
    rfl

/-- A resolved `removeHostsFromGroup` acknowledgement has `success = true`. -/
theorem removeHostsFromGroup_ack (st : ClientState) (now : Int)
    (tr : OAuthHttpResponse) (ar : ApiHttpResponse Unit)
    (groupId : String) (hostIds : List String) (v : ActionResult)
    (h : (removeHostsFromGroup st now tr ar groupId hostIds).1 = .ok v) : v.success = true := by
  unfold removeHostsFromGroup at h
  rcases hr : request st now tr ar with ⟨res, st1, n⟩
  rw [hr] at h
  rcases res with e | x
  · exact Except.noConfusion h
  · have h3 := Except.ok.inj h
    subst h3
    rfl

/-- A resolved `deleteRTRSession` acknowledgement has `success = true`. -/
theorem deleteRTRSession_ack (st : ClientState) (now : Int)
    (tr : OAuthHttpResponse) (ar : ApiHttpResponse Unit)
    (sessionId : String) (v : ActionResult)
    (h : (deleteRTRSession st now tr ar sessionId).1 = .ok v) : v.success = true := by
  unfold deleteRTRSession at h
  rcases hr : request st now tr ar with ⟨res, st1, n⟩
  rw [hr] at h
  rcases res with e | x
  · exact Except.noConfusion h
  · have h3 := Except.ok.inj h
    subst h3
    rfl

/-- The vulnerabilities tool with a present filter delegates state and call
counter to the client query. -/
theorem queryVulnerabilitiesTool_some_run (st : ClientState) (now : Int)
    (tr : OAuthHttpResponse)
    (ar : ApiHttpResponse (CrowdStrikeResponse String)) (f : String)
    (params : Option QueryParams) :
    (queryVulnerabilitiesTool st now tr ar (some f) params).2 =
      (queryVulnerabilities st now tr ar f params).2 := by
  show (match queryVulnerabilities st now tr ar f params with
        | (Except.error e, st1, n) =>
            ((Except.error (ToolError.op e) : Except ToolError (List String)),
              st1, n)
        | (Except.ok v, st1, n) => (Except.ok v, st1, n)).2 =
      (queryVulnerabilities st now tr ar f params).2
  rcases hr : queryVulnerabilities st now tr ar f params with ⟨res, st1, n⟩
  rcases res with e | x <;> rfl

-- =============================================================================
-- Claim theorems
-- =============================================================================

/-- C1: for every client state holding a cached (truthy) token with the
current time strictly below the recorded expiry minus 60000 ms,
`getAccessToken` returns that token immediately with no network call and no
state change; whenever the token is absent or the time is at or past the
boundary it performs a token exchange (one network call).  In particular,
for a token fetched at time T with `expires_in = 300`, a call at T+239s is a
cache hit and a call at T+241s performs an exchange. -/
theorem token_cache_hit_boundary (st : ClientState) (now : Int)
    (r : OAuthHttpResponse) :
    (∀ tok, st.accessToken = some tok → tok ≠ "" →
      now < st.tokenExpiry - 60000 →
      getAccessToken st now r = (.ok (tok, st), 0))
  ∧ ((st.accessToken = none ∨ st.tokenExpiry - 60000 ≤ now) →
      getAccessToken st now r = tokenExchange st now r ∧
      (getAccessToken st now r).2 = 1)
  ∧ (∀ T : Int, ∀ tok : String, tok ≠ "" →
      (getAccessToken
        { st with accessToken := some tok, tokenExpiry := T + 300 * 1000 }
        (T + 239 * 1000) r).2 = 0 ∧
      (getAccessToken
        { st with accessToken := some tok, tokenExpiry := T + 300 * 1000 }
        (T + 241 * 1000) r).2 = 1) := by
  refine ⟨?_, ?_, ?_⟩
  · intro tok hA ht hb
    exact getAccessToken_hit st now r tok hA ht hb
  · intro hmiss
    have hEx : getAccessToken st now r = tokenExchange st now r := by
      rcases hmiss with hA | hb
      · exact getAccessToken_miss_none st now r hA
      · rcases hA : st.accessToken with _ | tok
        · exact getAccessToken_miss_none st now r hA
        · exact getAccessToken_miss_expired st now r tok hA hb
    refine ⟨hEx, ?_⟩
    rw [hEx]
    exact tokenExchange_count ..
  · intro T tok ht
    constructor
    · rw [getAccessToken_hit _ _ r tok rfl ht
        (by show (T + 239 * 1000 : Int) < T + 300 * 1000 - 60000; omega)]
    · rw [getAccessToken_miss_expired _ _ r tok rfl
        (by show (T + 300 * 1000 - 60000 : Int) ≤ T + 241 * 1000; omega)]
      exact tokenExchange_count ..

/-- Witness for C1 at a concrete state: a client holding token "tok1" with
expiry 400000, queried at time 100000, gets a pure cache hit. -/
theorem token_cache_hit_boundary_witness :
    getAccessToken clientTok 100000 oauthOk = (.ok ("tok1", clientTok), 0) :=
  (token_cache_hit_boundary clientTok 100000 oauthOk).1 "tok1" rfl
    (by decide) (by show (100000 : Int) < clientTok.tokenExpiry - 60000; decide)

/-- C2: a request whose HTTP response status is 401 or 403 clears the cached
token and fails with `AuthenticationError`, with no retry (exactly one API
fetch, counter n+1); consequently the next `getAccessToken` on the resulting
state performs a fresh token exchange at any time, regardless of the prior
expiry. -/
theorem auth_failure_invalidates_token {α : Type} (st : ClientState)
    (now : Int) (tokResp : OAuthHttpResponse) (resp : ApiHttpResponse α)
    (hs : resp.status = 401 ∨ resp.status = 403) (tok : String)
    (st1 : ClientState) (n : Nat)
    (hA : getAccessToken st now tokResp = (.ok (tok, st1), n)) :
    request st now tokResp resp =
      (.error (.authenticationError
        "Authentication failed. Check your API credentials."),
       { st1 with accessToken := none }, n + 1)
  ∧ (∀ now2 : Int, ∀ r2 : OAuthHttpResponse,
      getAccessToken { st1 with accessToken := none } now2 r2 =
        tokenExchange { st1 with accessToken := none } now2 r2 ∧
      (getAccessToken { st1 with accessToken := none } now2 r2).2 = 1) := by
  constructor
  · rw [request_token_ok st now tokResp resp tok st1 n hA]
    unfold classifyResponse
    rw [if_neg (by rcases hs with h | h <;> omega), if_pos hs]
  · intro now2 r2
    have hEx := getAccessToken_miss_none { st1 with accessToken := none }
      now2 r2 rfl
    refine ⟨hEx, ?_⟩
    rw [hEx]
    exact tokenExchange_count ..

/-- Witness for C2 at a concrete run: a 401 on a client with a valid cached
token fails with `AuthenticationError` and clears the token. -/
theorem auth_failure_invalidates_token_witness :
    request clientTok 0 oauthOk api401Unit =
      (.error (.authenticationError
        "Authentication failed. Check your API credentials."),
       { clientTok with accessToken := none }, 1) :=
  (auth_failure_invalidates_token clientTok 0 oauthOk api401Unit
    (Or.inl rfl) "tok1" clientTok 0 (by rfl)).1

/-- C4: a request whose HTTP response status is 429 fails (with no retry;
exactly one API fetch, counter n+1) with a `RateLimitError` that is marked
retryable and whose retry-after is the `X-RateLimit-RetryAfter` header
parsed as seconds when present, and 60 when absent; `parseInt "30" = 30`. -/
theorem rate_limit_surfacing {α : Type} (st : ClientState) (now : Int)
    (tokResp : OAuthHttpResponse) (resp : ApiHttpResponse α)
    (hs : resp.status = 429) (tok : String) (st1 : ClientState) (n : Nat)
    (hA : getAccessToken st now tokResp = (.ok (tok, st1), n)) :
    request st now tokResp resp =
      (.error (.rateLimitError "Rate limit exceeded"
        (retryAfterValue resp.retryAfterHeader)), st1, n + 1)
  ∧ (resp.retryAfterHeader = none →
      retryAfterValue resp.retryAfterHeader = some 60)
  ∧ (∀ v k, resp.retryAfterHeader = some v → v ≠ "" →
      jsParseInt v = some k → retryAfterValue resp.retryAfterHeader = some k)
  ∧ (∀ m ra, CsError.retryable (.rateLimitError m ra) = true)
  ∧ jsParseInt "30" = some 30 := by
  refine ⟨?_, ?_, ?_, fun m ra => rfl, by decide⟩
  · rw [request_token_ok st now tokResp resp tok st1 n hA]
    unfold classifyResponse
    rw [if_pos hs]
  · intro h
    unfold retryAfterValue
    rw [h]
  · intro v k hv hne hk
    unfold retryAfterValue
    rw [hv]
    show (if v ≠ "" then jsParseInt v else some 60) = some k
    rw [if_pos hne]
    exact hk

/-- Witness for C4 at a concrete run: a 429 with header value "30" yields a
`RateLimitError` with retry-after exactly 30. -/
theorem rate_limit_surfacing_witness :
    request clientTok 0 oauthOk api429Unit =
      (.error (.rateLimitError "Rate limit exceeded" (some 30)),
       clientTok, 1) :=
  ((rate_limit_surfacing clientTok 0 oauthOk api429Unit rfl "tok1" clientTok
    0 (by rfl)).1).trans (by rfl)

/-- C5: a request whose HTTP response is a non-2xx status other than 401,
403 and 429 fails with `CrowdStrikeApiError` carrying that status and the
extracted message, which is: the join of the errors-array messages with
"; " when a non-empty errors array parsed; else a truthy top-level message;
else "API error: <status>".  In particular the two-entry errors body yields
"bad filter; bad sort", a message-only body yields its message, and an
unparsable body yields the fallback. -/
theorem api_error_extraction {α : Type} (st : ClientState) (now : Int)
    (tokResp : OAuthHttpResponse) (resp : ApiHttpResponse α)
    (h429 : resp.status ≠ 429) (h401 : resp.status ≠ 401)
    (h403 : resp.status ≠ 403) (hok : httpOk resp.status = false)
    (tok : String) (st1 : ClientState) (n : Nat)
    (hA : getAccessToken st now tokResp = (.ok (tok, st1), n)) :
    request st now tokResp resp =
      (.error (.apiError (extractErrorMessage resp.status resp.errorBody)
        resp.status), st1, n + 1)
  ∧ (∀ s : Nat, extractErrorMessage s
      (.parsed (some ["bad filter", "bad sort"]) none) =
        "bad filter; bad sort")
  ∧ (∀ s : Nat, ∀ m, m ≠ "" →
      extractErrorMessage s (.parsed none (some m)) = m)
  ∧ (∀ s : Nat, extractErrorMessage s .unparsable =
      "API error: " ++ toString s) := by
  refine ⟨?_, fun s => rfl, ?_, fun s => rfl⟩
  · rw [request_token_ok st now tokResp resp tok st1 n hA]
    unfold classifyResponse
    rw [if_neg h429,
      if_neg (by rintro (h | h) <;> [exact h401 h; exact h403 h]),
      if_pos hok]
  · intro s m hm
    show (if ((none : Option (List String)).getD []).length ≠ 0 then
        String.intercalate "; " ((none : Option (List String)).getD [])
      else match some m with
        | some m2 => if m2 ≠ "" then m2 else "API error: " ++ toString s
        | none => "API error: " ++ toString s) = m
    rw [if_neg (by decide)]
    show (if m ≠ "" then m else "API error: " ++ toString s) = m
    rw [if_pos hm]

/-- Witness for C5 at a concrete run: a 400 whose body is the two-entry
errors envelope yields `ApiError "bad filter; bad sort"` with status 400. -/
theorem api_error_extraction_witness :
    request clientTok 0 oauthOk api400Unit =
      (.error (.apiError "bad filter; bad sort" 400), clientTok, 1) :=
  ((api_error_extraction clientTok 0 oauthOk api400Unit (by decide)
    (by decide) (by decide) (by decide) "tok1" clientTok 0 (by rfl)).1).trans
    (by rfl)

/-- C7: a token exchange performed by `getAccessToken` (entered whenever the
token is absent or the boundary is reached) fails on a non-success status
with `AuthenticationError` carrying the status and status text, with exactly
one call and no retry; on success it stores the returned token, sets the
expiry to `now + expires_in * 1000` (wholly replacing any prior cached
token) and returns the token. -/
theorem token_exchange_contract (st : ClientState) (now : Int)
    (r : OAuthHttpResponse)
    (hmiss : st.accessToken = none ∨ st.tokenExpiry - 60000 ≤ now) :
    getAccessToken st now r = tokenExchange st now r
  ∧ (httpOk r.status = false →
      tokenExchange st now r =
        (.error (.authenticationError
          ("OAuth2 authentication failed: " ++ toString r.status ++ " "
            ++ r.statusText)), 1))
  ∧ (httpOk r.status = true →
      tokenExchange st now r =
        (.ok (r.access_token,
          { st with accessToken := some r.access_token
                    tokenExpiry := now + r.expires_in * 1000 }), 1)) := by
  refine ⟨?_, fun h => tokenExchange_err st now r h,
    fun h => tokenExchange_ok st now r h⟩
  rcases hmiss with hA | hb
  · exact getAccessToken_miss_none st now r hA
  · rcases hA : st.accessToken with _ | tok
    · exact getAccessToken_miss_none st now r hA
    · exact getAccessToken_miss_expired st now r tok hA hb

/-- Witness for C7 at a concrete run: a fresh client exchanging against a
successful token endpoint stores "tok1" with expiry 0 + 300 * 1000. -/
theorem token_exchange_contract_witness :
    getAccessToken client0 0 oauthOk = tokenExchange client0 0 oauthOk ∧
    tokenExchange client0 0 oauthOk =
      (.ok ("tok1",
        { client0 with accessToken := some "tok1"
                       tokenExpiry := 0 + 300 * 1000 }), 1) :=
  ⟨(token_exchange_contract client0 0 oauthOk (Or.inl rfl)).1,
   ((token_exchange_contract client0 0 oauthOk (Or.inl rfl)).2.2
     (by decide)).trans (by rfl)⟩

/-- C6: a vulnerability query invoked without a filter fails as a local
validation error with zero network calls (the tool schema declares the
filter required), while with a filter present the query reaches the network;
every other query family declares the filter optional and its client query
operation always issues the HTTP request (at least one network call),
failing on no absent filter. -/
theorem vulnerability_filter_required (st : ClientState) (now : Int)
    (tr : OAuthHttpResponse)
    (ar : ApiHttpResponse (CrowdStrikeResponse String))
    (params : Option QueryParams) :
    queryVulnerabilitiesTool st now tr ar none params =
      (.error .validation, st, 0)
  ∧ filterRequired .vulnerabilities = true
  ∧ (∀ fam : QueryFamily, fam ≠ .vulnerabilities → filterRequired fam = false)
  ∧ (∀ f, 1 ≤ (queryVulnerabilitiesTool st now tr ar (some f) params).2.2)
  ∧ (∀ qp, 1 ≤ (queryHosts st now tr ar qp).2.2)
  ∧ (∀ qp, 1 ≤ (queryDetections st now tr ar qp).2.2)
  ∧ (∀ qp, 1 ≤ (queryIncidents st now tr ar qp).2.2)
  ∧ (∀ qp, 1 ≤ (queryAlerts st now tr ar qp).2.2)
  ∧ (∀ qp, 1 ≤ (queryIOCs st now tr ar qp).2.2)
  ∧ (∀ qp, 1 ≤ (queryHostGroups st now tr ar qp).2.2)
  ∧ (∀ qp, 1 ≤ (queryPreventionPolicies st now tr ar qp).2.2)
  ∧ (∀ qp, 1 ≤ (queryDeviceControlPolicies st now tr ar qp).2.2)
  ∧ (∀ qp, 1 ≤ (querySensorUpdatePolicies st now tr ar qp).2.2) := by
  refine ⟨rfl, rfl, ?_, ?_, ?_, ?_, ?_, ?_, ?_, ?_, ?_, ?_, ?_⟩
  · intro fam h
    cases fam <;> first | rfl | exact absurd rfl h
  · intro f
    have h1 := queryVulnerabilitiesTool_some_run st now tr ar f params
    have h2 := queryVulnerabilities_run st now tr ar f params
    have h3 := request_count_pos st now tr ar
    rw [← h2, ← h1] at h3
    exact h3
  all_goals
    intro qp
  · have h := queryHosts_run st now tr ar qp
    have h3 := request_count_pos st now tr ar
    rw [← h] at h3
    exact h3
  · have h := queryDetections_run st now tr ar qp
    have h3 := request_count_pos st now tr ar
    rw [← h] at h3
    exact h3
  · have h := queryIncidents_run st now tr ar qp
    have h3 := request_count_pos st now tr ar
    rw [← h] at h3
    exact h3
  · have h := queryAlerts_run st now tr ar qp
    have h3 := request_count_pos st now tr ar
    rw [← h] at h3
    exact h3
  · have h := queryIOCs_run st now tr ar qp
    have h3 := request_count_pos st now tr ar
    rw [← h] at h3
    exact h3
  · have h := queryHostGroups_run st now tr ar qp
    have h3 := request_count_pos st now tr ar
    rw [← h] at h3
    exact h3
  · have h := queryPreventionPolicies_run st now tr ar qp
    have h3 := request_count_pos st now tr ar
    rw [← h] at h3
    exact h3
  · have h := queryDeviceControlPolicies_run st now tr ar qp
    have h3 := request_count_pos st now tr ar
    rw [← h] at h3
    exact h3
  · have h := querySensorUpdatePolicies_run st now tr ar qp
    have h3 := request_count_pos st now tr ar
    rw [← h] at h3
    exact h3

/-- Witness for C6 at a concrete state: the vulnerabilities tool with no
filter fails validation with zero calls, and the hosts family does not
require a filter. -/
theorem vulnerability_filter_required_witness :
    queryVulnerabilitiesTool client0 0 oauthOk apiIdsEnv none none =
      (.error .validation, client0, 0)
  ∧ filterRequired .hosts = false :=
  ⟨(vulnerability_filter_required client0 0 oauthOk apiIdsEnv none).1,
   (vulnerability_filter_required client0 0 oauthOk apiIdsEnv none).2.2.1
     .hosts (by decide)⟩

/-- C3 counterexample: `containHost` is a mutate operation taking an
identifier list that is neither a delete nor an update operation, yet called
with an empty id list on a client with a valid cached token it still issues
the HTTP call (network counter 1, not 0) and returns a synthesized
acknowledgement instead of an empty result. -/
theorem contain_empty_ids_counterexample :
    containHost clientTok 0 oauthOk api200Unit [] =
      (.ok { success := true
             message := "Containment initiated for 0 host(s)" },
       clientTok, 1) := by
  rfl

/-- C3 amended: every get-by-ids operation, for every entity family, returns
an empty result without issuing any HTTP call when the id list is empty;
every mutation operation taking an identifier list — the update and delete
operations but also the host and group action operations (contain, lift
containment, hide, unhide, add/remove hosts) — still performs the HTTP call
(at least one network call) with whatever list is supplied, including the
empty one. -/
theorem empty_ids_shortcircuit_amended :
  (∀ st now tr (ar : ApiHttpResponse (CrowdStrikeResponse Host)),
      getHosts st now tr ar [] = (.ok [], st, 0))
  ∧
  (∀ st now tr (ar : ApiHttpResponse (CrowdStrikeResponse Detection)),
      getDetections st now tr ar [] = (.ok [], st, 0))
  ∧
  (∀ st now tr (ar : ApiHttpResponse (CrowdStrikeResponse Incident)),
      getIncidents st now tr ar [] = (.ok [], st, 0))
  ∧
  (∀ st now tr (ar : ApiHttpResponse (CrowdStrikeResponse IncidentBehavior)),
      getBehaviors st now tr ar [] = (.ok [], st, 0))
  ∧
  (∀ st now tr (ar : ApiHttpResponse (CrowdStrikeResponse Alert)),
      getAlerts st now tr ar [] = (.ok [], st, 0))
  ∧
  (∀ st now tr (ar : ApiHttpResponse (CrowdStrikeResponse IOC)),
      getIOCs st now tr ar [] = (.ok [], st, 0))
  ∧
  (∀ st now tr (ar : ApiHttpResponse (CrowdStrikeResponse Vulnerability)),
      getVulnerabilities st now tr ar [] = (.ok [], st, 0))
  ∧
  (∀ st now tr (ar : ApiHttpResponse (CrowdStrikeResponse HostGroup)),
      getHostGroups st now tr ar [] = (.ok [], st, 0))
  ∧
  (∀ st now tr (ar : ApiHttpResponse (CrowdStrikeResponse Policy)),
      getPreventionPolicies st now tr ar [] = (.ok [], st, 0))
  ∧
  (∀ st now tr (ar : ApiHttpResponse (CrowdStrikeResponse Policy)),
      getDeviceControlPolicies st now tr ar [] = (.ok [], st, 0))
  ∧
  (∀ st now tr (ar : ApiHttpResponse (CrowdStrikeResponse Policy)),
      getSensorUpdatePolicies st now tr ar [] = (.ok [], st, 0))
  ∧
  (∀ ids : List String,
      ∀ st now tr (ar : ApiHttpResponse Unit),
      1 ≤ (containHost st now tr ar ids).2.2)
  ∧
  (∀ ids : List String,
      ∀ st now tr (ar : ApiHttpResponse Unit),
      1 ≤ (liftContainment st now tr ar ids).2.2)
  ∧
  (∀ ids : List String,
      ∀ st now tr (ar : ApiHttpResponse Unit),
      1 ≤ (hideHost st now tr ar ids).2.2)
  ∧
  (∀ ids : List String,
      ∀ st now tr (ar : ApiHttpResponse Unit),
      1 ≤ (unhideHost st now tr ar ids).2.2)
  ∧
  (∀ (ids : List String) (status : String)
      (assignedToUuid comment : Option String),
      ∀ st now tr (ar : ApiHttpResponse Unit),
      1 ≤ (updateDetectionStatus st now tr ar ids status assignedToUuid comment).2.2)
  ∧
  (∀ (ids : List String) (action : String)
      (value : Option String),
      ∀ st now tr (ar : ApiHttpResponse Unit),
      1 ≤ (updateIncident st now tr ar ids action value).2.2)
  ∧
  (∀ (ids : List String)
      (status assignedTo comment : Option String),
      ∀ st now tr (ar : ApiHttpResponse Unit),
      1 ≤ (updateAlerts st now tr ar ids status assignedTo comment).2.2)
  ∧
  (∀ ids : List String,
      ∀ st now tr (ar : ApiHttpResponse Unit),
      1 ≤ (deleteIOCs st now tr ar ids).2.2)
  ∧
  (∀ ids : List String,
      ∀ st now tr (ar : ApiHttpResponse Unit),
      1 ≤ (deleteHostGroups st now tr ar ids).2.2)
  ∧
  (∀ (groupId : String) (hostIds : List String),
      ∀ st now tr (ar : ApiHttpResponse Unit),
      1 ≤ (addHostsToGroup st now tr ar groupId hostIds).2.2)
  ∧
  (∀ (groupId : String) (hostIds : List String),
      ∀ st now tr (ar : ApiHttpResponse Unit),
      1 ≤ (removeHostsFromGroup st now tr ar groupId hostIds).2.2) := by
  refine ⟨?_, ?_, ?_, ?_, ?_, ?_, ?_, ?_, ?_, ?_, ?_, ?_, ?_, ?_, ?_, ?_, ?_, ?_, ?_, ?_, ?_, ?_⟩
  · intro st now tr ar
    rfl
  · intro st now tr ar
    rfl
  · intro st now tr ar
    rfl
  · intro st now tr ar
    rfl
  · intro st now tr ar
    rfl
  · intro st now tr ar
    rfl
  · intro st now tr ar
    rfl
  · intro st now tr ar
    rfl
  · intro st now tr ar
    rfl
  · intro st now tr ar
    rfl
  · intro st now tr ar
    rfl
  · intro ids st now tr ar
    have h := containHost_run st now tr ar ids
    have h3 := request_count_pos st now tr ar
    rw [← h] at h3
    exact h3
  · intro ids st now tr ar
    have h := liftContainment_run st now tr ar ids
    have h3 := request_count_pos st now tr ar
    rw [← h] at h3
    exact h3
  · intro ids st now tr ar
    have h := hideHost_run st now tr ar ids
    have h3 := request_count_pos st now tr ar
    rw [← h] at h3
    exact h3
  · intro ids st now tr ar
    have h := unhideHost_run st now tr ar ids
    have h3 := request_count_pos st now tr ar
    rw [← h] at h3
    exact h3
  · intro ids status assignedToUuid comment st now tr ar
    have h := updateDetectionStatus_run st now tr ar ids status assignedToUuid comment
    have h3 := request_count_pos st now tr ar
    rw [← h] at h3
    exact h3
  · intro ids action value st now tr ar
    have h := updateIncident_run st now tr ar ids action value
    have h3 := request_count_pos st now tr ar
    rw [← h] at h3
    exact h3
  · intro ids status assignedTo comment st now tr ar
    have h := updateAlerts_run st now tr ar ids status assignedTo comment
    have h3 := request_count_pos st now tr ar
    rw [← h] at h3
    exact h3
  · intro ids st now tr ar
    have h := deleteIOCs_run st now tr ar ids
    have h3 := request_count_pos st now tr ar
    rw [← h] at h3
    exact h3
  · intro ids st now tr ar
    have h := deleteHostGroups_run st now tr ar ids
    have h3 := request_count_pos st now tr ar
    rw [← h] at h3
    exact h3
  · intro groupId hostIds st now tr ar
    have h := addHostsToGroup_run st now tr ar groupId hostIds
    have h3 := request_count_pos st now tr ar
    rw [← h] at h3
    exact h3
  · intro groupId hostIds st now tr ar
    have h := removeHostsFromGroup_run st now tr ar groupId hostIds
    have h3 := request_count_pos st now tr ar
    rw [← h] at h3
    exact h3

/-- C8: the tenant credentials and the resolved base URL bound at client
construction are immutable for the client's lifetime — the token step,
`request`, and every typed operation, whether it resolves or fails, leave
them unchanged; the access-token slot is the only state that mutates. -/
theorem credentials_immutable :
  (∀ st now r (p : String × ClientState),
      (getAccessToken st now r).1 = .ok p → preservesIdentity st p.2)
  ∧
  (∀ (α : Type) st now tr (ar : ApiHttpResponse α),
      preservesIdentity st ((request st now tr ar).2.1))
  ∧
  (∀ st now tr (ar : ApiHttpResponse (CrowdStrikeResponse String)) (params : Option QueryParams),
      preservesIdentity st ((queryHosts st now tr ar params).2.1))
  ∧
  (∀ st now tr (ar : ApiHttpResponse (CrowdStrikeResponse String)) (params : Option QueryParams),
      preservesIdentity st ((queryDetections st now tr ar params).2.1))
  ∧
  (∀ st now tr (ar : ApiHttpResponse (CrowdStrikeResponse String)) (params : Option QueryParams),
      preservesIdentity st ((queryIncidents st now tr ar params).2.1))
  ∧
  (∀ st now tr (ar : ApiHttpResponse (CrowdStrikeResponse String)) (params : Option QueryParams),
      preservesIdentity st ((queryAlerts st now tr ar params).2.1))
  ∧
  (∀ st now tr (ar : ApiHttpResponse (CrowdStrikeResponse String)) (params : Option QueryParams),
      preservesIdentity st ((queryIOCs st now tr ar params).2.1))
  ∧
  (∀ st now tr (ar : ApiHttpResponse (CrowdStrikeResponse String)) (filter : String) (params : Option QueryParams),
      preservesIdentity st ((queryVulnerabilities st now tr ar filter params).2.1))
  ∧
  (∀ st now tr (ar : ApiHttpResponse (CrowdStrikeResponse String)) (params : Option QueryParams),
      preservesIdentity st ((queryHostGroups st now tr ar params).2.1))
  ∧
  (∀ st now tr (ar : ApiHttpResponse (CrowdStrikeResponse String)) (params : Option QueryParams),
      preservesIdentity st ((queryPreventionPolicies st now tr ar params).2.1))
  ∧
  (∀ st now tr (ar : ApiHttpResponse (CrowdStrikeResponse String)) (params : Option QueryParams),
      preservesIdentity st ((queryDeviceControlPolicies st now tr ar params).2.1))
  ∧
  (∀ st now tr (ar : ApiHttpResponse (CrowdStrikeResponse String)) (params : Option QueryParams),
      preservesIdentity st ((querySensorUpdatePolicies st now tr ar params).2.1))
  ∧
  (∀ st now tr (ar : ApiHttpResponse (CrowdStrikeResponse Host))
      (ids : List String),
      preservesIdentity st ((getHosts st now tr ar ids).2.1))
  ∧
  (∀ st now tr (ar : ApiHttpResponse (CrowdStrikeResponse Detection))
      (ids : List String),
      preservesIdentity st ((getDetections st now tr ar ids).2.1))
  ∧
  (∀ st now tr (ar : ApiHttpResponse (CrowdStrikeResponse Incident))
      (ids : List String),
      preservesIdentity st ((getIncidents st now tr ar ids).2.1))
  ∧
  (∀ st now tr (ar : ApiHttpResponse (CrowdStrikeResponse IncidentBehavior))
      (ids : List String),
      preservesIdentity st ((getBehaviors st now tr ar ids).2.1))
  ∧
  (∀ st now tr (ar : ApiHttpResponse (CrowdStrikeResponse Alert))
      (ids : List String),
      preservesIdentity st ((getAlerts st now tr ar ids).2.1))
  ∧
  (∀ st now tr (ar : ApiHttpResponse (CrowdStrikeResponse IOC))
      (ids : List String),
      preservesIdentity st ((getIOCs st now tr ar ids).2.1))
  ∧
  (∀ st now tr (ar : ApiHttpResponse (CrowdStrikeResponse Vulnerability))
      (ids : List String),
      preservesIdentity st ((getVulnerabilities st now tr ar ids).2.1))
  ∧
  (∀ st now tr (ar : ApiHttpResponse (CrowdStrikeResponse HostGroup))
      (ids : List String),
      preservesIdentity st ((getHostGroups st now tr ar ids).2.1))
  ∧
  (∀ st now tr (ar : ApiHttpResponse (CrowdStrikeResponse Policy))
      (ids : List String),
      preservesIdentity st ((getPreventionPolicies st now tr ar ids).2.1))
  ∧
  (∀ st now tr (ar : ApiHttpResponse (CrowdStrikeResponse Policy))
      (ids : List String),
      preservesIdentity st ((getDeviceControlPolicies st now tr ar ids).2.1))
  ∧
  (∀ st now tr (ar : ApiHttpResponse (CrowdStrikeResponse Policy))
      (ids : List String),
      preservesIdentity st ((getSensorUpdatePolicies st now tr ar ids).2.1))
  ∧
  (∀ st now tr (ar : ApiHttpResponse Unit) (ids : List String),
      preservesIdentity st ((containHost st now tr ar ids).2.1))
  ∧
  (∀ st now tr (ar : ApiHttpResponse Unit) (ids : List String),
      preservesIdentity st ((liftContainment st now tr ar ids).2.1))
  ∧
  (∀ st now tr (ar : ApiHttpResponse Unit) (ids : List String),
      preservesIdentity st ((hideHost st now tr ar ids).2.1))
  ∧
  (∀ st now tr (ar : ApiHttpResponse Unit) (ids : List String),
      preservesIdentity st ((unhideHost st now tr ar ids).2.1))
  ∧
  (∀ st now tr (ar : ApiHttpResponse Unit) (ids : List String) (status : String)
      (assignedToUuid comment : Option String),
      preservesIdentity st ((updateDetectionStatus st now tr ar ids status assignedToUuid comment).2.1))
  ∧
  (∀ st now tr (ar : ApiHttpResponse Unit) (ids : List String) (action : String) (value : Option String),
      preservesIdentity st ((updateIncident st now tr ar ids action value).2.1))
  ∧
  (∀ st now tr (ar : ApiHttpResponse Unit) (ids : List String) (status assignedTo comment : Option String),
      preservesIdentity st ((updateAlerts st now tr ar ids status assignedTo comment).2.1))
  ∧
  (∀ st now tr (ar : ApiHttpResponse Unit) (ids : List String),
      preservesIdentity st ((deleteIOCs st now tr ar ids).2.1))
  ∧
  (∀ st now tr (ar : ApiHttpResponse Unit) (ids : List String),
      preservesIdentity st ((deleteHostGroups st now tr ar ids).2.1))
  ∧
  (∀ st now tr (ar : ApiHttpResponse Unit) (groupId : String) (hostIds : List String),
      preservesIdentity st ((addHostsToGroup st now tr ar groupId hostIds).2.1))
  ∧
  (∀ st now tr (ar : ApiHttpResponse Unit) (groupId : String) (hostIds : List String),
      preservesIdentity st ((removeHostsFromGroup st now tr ar groupId hostIds).2.1))
  ∧
  (∀ st now tr (ar : ApiHttpResponse Unit) (sessionId : String),
      preservesIdentity st ((deleteRTRSession st now tr ar sessionId).2.1))
  ∧
  (∀ st now tr (ar : ApiHttpResponse (CrowdStrikeResponse IOC)) (input : IOCCreateInput),
      preservesIdentity st ((createIOC st now tr ar input).2.1))
  ∧
  (∀ st now tr (ar : ApiHttpResponse (CrowdStrikeResponse IOC)) (id : String) (input : IOCCreateInput),
      preservesIdentity st ((updateIOC st now tr ar id input).2.1))
  ∧
  (∀ st now tr (ar : ApiHttpResponse (CrowdStrikeResponse HostGroup)) (input : HostGroupCreateInput),
      preservesIdentity st ((createHostGroup st now tr ar input).2.1))
  ∧
  (∀ st now tr (ar : ApiHttpResponse (CrowdStrikeResponse HostGroup)) (id : String) (input : HostGroupCreateInput),
      preservesIdentity st ((updateHostGroup st now tr ar id input).2.1))
  ∧
  (∀ st now tr (ar : ApiHttpResponse (CrowdStrikeResponse RTRSession)) (deviceId : String) (queueOffline : Bool),
      preservesIdentity st ((initRTRSession st now tr ar deviceId queueOffline).2.1))
  ∧
  (∀ st now tr (ar : ApiHttpResponse (CrowdStrikeResponse RTRCommandResult)) (sessionId baseCommand commandString : String),
      preservesIdentity st ((executeRTRCommand st now tr ar sessionId baseCommand commandString).2.1))
  ∧
  (∀ st now tr (ar : ApiHttpResponse (CrowdStrikeResponse RTRCommandResult)) (sessionId baseCommand commandString : String),
      preservesIdentity st ((executeRTRActiveResponderCommand st now tr ar sessionId baseCommand commandString).2.1)) := by
  refine ⟨?_, ?_, ?_, ?_, ?_, ?_, ?_, ?_, ?_, ?_, ?_, ?_, ?_, ?_, ?_, ?_, ?_, ?_, ?_, ?_, ?_, ?_, ?_, ?_, ?_, ?_, ?_, ?_, ?_, ?_, ?_, ?_, ?_, ?_, ?_, ?_, ?_, ?_, ?_, ?_, ?_, ?_⟩
  · intro st now r p h
    exact getAccessToken_ok_preserves st now r p h
  · intro α st now tr ar
    exact request_preserves st now tr ar
  · intro st now tr ar params
    rw [queryHosts_run st now tr ar params]
    exact request_preserves st now tr ar
  · intro st now tr ar params
    rw [queryDetections_run st now tr ar params]
    exact request_preserves st now tr ar
  · intro st now tr ar params
    rw [queryIncidents_run st now tr ar params]
    exact request_preserves st now tr ar
  · intro st now tr ar params
    rw [queryAlerts_run st now tr ar params]
    exact request_preserves st now tr ar
  · intro st now tr ar params
    rw [queryIOCs_run st now tr ar params]
    exact request_preserves st now tr ar
  · intro st now tr ar filter params
    rw [queryVulnerabilities_run st now tr ar filter params]
    exact request_preserves st now tr ar
  · intro st now tr ar params
    rw [queryHostGroups_run st now tr ar params]
    exact request_preserves st now tr ar
  · intro st now tr ar params
    rw [queryPreventionPolicies_run st now tr ar params]
    exact request_preserves st now tr ar
  · intro st now tr ar params
    rw [queryDeviceControlPolicies_run st now tr ar params]
    exact request_preserves st now tr ar
  · intro st now tr ar params
    rw [querySensorUpdatePolicies_run st now tr ar params]
    exact request_preserves st now tr ar
  · intro st now tr ar ids
    rw [getHosts_run st now tr ar ids]
    by_cases hc : ids.length = 0
    · rw [if_pos hc]
      exact ⟨rfl, rfl⟩
    · rw [if_neg hc]
      exact request_preserves st now tr ar
  · intro st now tr ar ids
    rw [getDetections_run st now tr ar ids]
    by_cases hc : ids.length = 0
    · rw [if_pos hc]
      exact ⟨rfl, rfl⟩
    · rw [if_neg hc]
      exact request_preserves st now tr ar
  · intro st now tr ar ids
    rw [getIncidents_run st now tr ar ids]
    by_cases hc : ids.length = 0
    · rw [if_pos hc]
      exact ⟨rfl, rfl⟩
    · rw [if_neg hc]
      exact request_preserves st now tr ar
  · intro st now tr ar ids
    rw [getBehaviors_run st now tr ar ids]
    by_cases hc : ids.length = 0
    · rw [if_pos hc]
      exact ⟨rfl, rfl⟩
    · rw [if_neg hc]
      exact request_preserves st now tr ar
  · intro st now tr ar ids
    rw [getAlerts_run st now tr ar ids]
    by_cases hc : ids.length = 0
    · rw [if_pos hc]
      exact ⟨rfl, rfl⟩
    · rw [if_neg hc]
      exact request_preserves st now tr ar
  · intro st now tr ar ids
    rw [getIOCs_run st now tr ar ids]
    by_cases hc : ids.length = 0
    · rw [if_pos hc]
      exact ⟨rfl, rfl⟩
    · rw [if_neg hc]
      exact request_preserves st now tr ar
  · intro st now tr ar ids
    rw [getVulnerabilities_run st now tr ar ids]
    by_cases hc : ids.length = 0
    · rw [if_pos hc]
      exact ⟨rfl, rfl⟩
    · rw [if_neg hc]
      exact request_preserves st now tr ar
  · intro st now tr ar ids
    rw [getHostGroups_run st now tr ar ids]
    by_cases hc : ids.length = 0
    · rw [if_pos hc]
      exact ⟨rfl, rfl⟩
    · rw [if_neg hc]
      exact request_preserves st now tr ar
  · intro st now tr ar ids
    rw [getPreventionPolicies_run st now tr ar ids]
    by_cases hc : ids.length = 0
    · rw [if_pos hc]
      exact ⟨rfl, rfl⟩
    · rw [if_neg hc]
      exact request_preserves st now tr ar
  · intro st now tr ar ids
    rw [getDeviceControlPolicies_run st now tr ar ids]
    by_cases hc : ids.length = 0
    · rw [if_pos hc]
      exact ⟨rfl, rfl⟩
    · rw [if_neg hc]
      exact request_preserves st now tr ar
  · intro st now tr ar ids
    rw [getSensorUpdatePolicies_run st now tr ar ids]
    by_cases hc : ids.length = 0
    · rw [if_pos hc]
      exact ⟨rfl, rfl⟩
    · rw [if_neg hc]
      exact request_preserves st now tr ar
  · intro st now tr ar ids
    rw [containHost_run st now tr ar ids]
    exact request_preserves st now tr ar
  · intro st now tr ar ids
    rw [liftContainment_run st now tr ar ids]
    exact request_preserves st now tr ar
  · intro st now tr ar ids
    rw [hideHost_run st now tr ar ids]
    exact request_preserves st now tr ar
  · intro st now tr ar ids
    rw [unhideHost_run st now tr ar ids]
    exact request_preserves st now tr ar
  · intro st now tr ar ids status assignedToUuid comment
    rw [updateDetectionStatus_run st now tr ar ids status assignedToUuid comment]
    exact request_preserves st now tr ar
  · intro st now tr ar ids action value
    rw [updateIncident_run st now tr ar ids action value]
    exact request_preserves st now tr ar
  · intro st now tr ar ids status assignedTo comment
    rw [updateAlerts_run st now tr ar ids status assignedTo comment]
    exact request_preserves st now tr ar
  · intro st now tr ar ids
    rw [deleteIOCs_run st now tr ar ids]
    exact request_preserves st now tr ar
  · intro st now tr ar ids
    rw [deleteHostGroups_run st now tr ar ids]
    exact request_preserves st now tr ar
  · intro st now tr ar groupId hostIds
    rw [addHostsToGroup_run st now tr ar groupId hostIds]
    exact request_preserves st now tr ar
  · intro st now tr ar groupId hostIds
    rw [removeHostsFromGroup_run st now tr ar groupId hostIds]
    exact request_preserves st now tr ar
  · intro st now tr ar sessionId
    rw [deleteRTRSession_run st now tr ar sessionId]
    exact request_preserves st now tr ar
  · intro st now tr ar input
    rw [createIOC_run st now tr ar input]
    exact request_preserves st now tr ar
  · intro st now tr ar id input
    rw [updateIOC_run st now tr ar id input]
    exact request_preserves st now tr ar
  · intro st now tr ar input
    rw [createHostGroup_run st now tr ar input]
    exact request_preserves st now tr ar
  · intro st now tr ar id input
    rw [updateHostGroup_run st now tr ar id input]
    exact request_preserves st now tr ar
  · intro st now tr ar deviceId queueOffline
    rw [initRTRSession_run st now tr ar deviceId queueOffline]
    exact request_preserves st now tr ar
  · intro st now tr ar sessionId baseCommand commandString
    rw [executeRTRCommand_run st now tr ar sessionId baseCommand commandString]
    exact request_preserves st now tr ar
  · intro st now tr ar sessionId baseCommand commandString
    rw [executeRTRActiveResponderCommand_run st now tr ar sessionId baseCommand commandString]
    exact request_preserves st now tr ar

/-- Witness for C8 at a concrete state: the token step on a valid cached
token preserves the identity fields. -/
theorem credentials_immutable_witness :
    preservesIdentity clientTok clientTok :=
  credentials_immutable.1 clientTok 0 oauthOk ("tok1", clientTok) rfl

/-- C9: whenever any mutation operation resolves rather than throwing, its
acknowledgement has `success = true`; a value with `success = false` is
never returned — failure is signalled only by a thrown error. -/
theorem mutation_ack_success :
  (∀ st now tr (ar : ApiHttpResponse Unit) (ids : List String)
      (v : ActionResult),
      (containHost st now tr ar ids).1 = .ok v → v.success = true)
  ∧
  (∀ st now tr (ar : ApiHttpResponse Unit) (ids : List String)
      (v : ActionResult),
      (liftContainment st now tr ar ids).1 = .ok v → v.success = true)
  ∧
  (∀ st now tr (ar : ApiHttpResponse Unit) (ids : List String)
      (v : ActionResult),
      (hideHost st now tr ar ids).1 = .ok v → v.success = true)
  ∧
  (∀ st now tr (ar : ApiHttpResponse Unit) (ids : List String)
      (v : ActionResult),
      (unhideHost st now tr ar ids).1 = .ok v → v.success = true)
  ∧
  (∀ st now tr (ar : ApiHttpResponse Unit) (ids : List String) (status : String)
      (assignedToUuid comment : Option String)
      (v : ActionResult),
      (updateDetectionStatus st now tr ar ids status assignedToUuid comment).1 = .ok v → v.success = true)
  ∧
  (∀ st now tr (ar : ApiHttpResponse Unit) (ids : List String) (action : String) (value : Option String)
      (v : ActionResult),
      (updateIncident st now tr ar ids action value).1 = .ok v → v.success = true)
  ∧
  (∀ st now tr (ar : ApiHttpResponse Unit) (ids : List String) (status assignedTo comment : Option String)
      (v : ActionResult),
      (updateAlerts st now tr ar ids status assignedTo comment).1 = .ok v → v.success = true)
  ∧
  (∀ st now tr (ar : ApiHttpResponse Unit) (ids : List String)
      (v : ActionResult),
      (deleteIOCs st now tr ar ids).1 = .ok v → v.success = true)
  ∧
  (∀ st now tr (ar : ApiHttpResponse Unit) (ids : List String)
      (v : ActionResult),
      (deleteHostGroups st now tr ar ids).1 = .ok v → v.success = true)
  ∧
  (∀ st now tr (ar : ApiHttpResponse Unit) (groupId : String) (hostIds : List String)
      (v : ActionResult),
      (addHostsToGroup st now tr ar groupId hostIds).1 = .ok v → v.success = true)
  ∧
  (∀ st now tr (ar : ApiHttpResponse Unit) (groupId : String) (hostIds : List String)
      (v : ActionResult),
      (removeHostsFromGroup st now tr ar groupId hostIds).1 = .ok v → v.success = true)
  ∧
  (∀ st now tr (ar : ApiHttpResponse Unit) (sessionId : String)
      (v : ActionResult),
      (deleteRTRSession st now tr ar sessionId).1 = .ok v → v.success = true) := by
  refine ⟨?_, ?_, ?_, ?_, ?_, ?_, ?_, ?_, ?_, ?_, ?_, ?_⟩
  · intro st now tr ar ids v h
    exact containHost_ack st now tr ar ids v h
  · intro st now tr ar ids v h
    exact liftContainment_ack st now tr ar ids v h
  · intro st now tr ar ids v h
    exact hideHost_ack st now tr ar ids v h
  · intro st now tr ar ids v h
    exact unhideHost_ack st now tr ar ids v h
  · intro st now tr ar ids status assignedToUuid comment v h
    exact updateDetectionStatus_ack st now tr ar ids status assignedToUuid comment v h
  · intro st now tr ar ids action value v h
    exact updateIncident_ack st now tr ar ids action value v h
  · intro st now tr ar ids status assignedTo comment v h
    exact updateAlerts_ack st now tr ar ids status assignedTo comment v h
  · intro st now tr ar ids v h
    exact deleteIOCs_ack st now tr ar ids v h
  · intro st now tr ar ids v h
    exact deleteHostGroups_ack st now tr ar ids v h
  · intro st now tr ar groupId hostIds v h
    exact addHostsToGroup_ack st now tr ar groupId hostIds v h
  · intro st now tr ar groupId hostIds v h
    exact removeHostsFromGroup_ack st now tr ar groupId hostIds v h
  · intro st now tr ar sessionId v h
    exact deleteRTRSession_ack st now tr ar sessionId v h

/-- Witness for C9 at a concrete run: a resolving `containHost` yields an
acknowledgement with `success = true`. -/
theorem mutation_ack_success_witness :
    (containHost clientTok 0 oauthOk api200Unit []).1 =
      .ok { success := true
            message := "Containment initiated for 0 host(s)" }
  ∧ ({ success := true
       message := "Containment initiated for 0 host(s)" } :
      ActionResult).success = true :=
  ⟨by rfl,
   mutation_ack_success.1 clientTok 0 oauthOk api200Unit []
     { success := true, message := "Containment initiated for 0 host(s)" }
     (by rfl)⟩

/-- C10: for a 2xx vendor response whose envelope contains a present but
empty `resources` array, each of the create/update/session/command
operations resolves with the JavaScript `undefined` (the unchecked first
element of the empty array, here `none`) rather than failing with a typed
error. -/
theorem empty_resources_resolve_undefined :
    createIOC clientTok 0 oauthOk apiEmptyIOC input0 = (.ok none, clientTok, 1)
  ∧ updateIOC clientTok 0 oauthOk apiEmptyIOC "ioc-1" input0 =
      (.ok none, clientTok, 1)
  ∧ createHostGroup clientTok 0 oauthOk apiEmptyHostGroup hgInput0 =
      (.ok none, clientTok, 1)
  ∧ updateHostGroup clientTok 0 oauthOk apiEmptyHostGroup "grp-1" hgInput0 =
      (.ok none, clientTok, 1)
  ∧ initRTRSession clientTok 0 oauthOk apiEmptyRTRSession "dev-1" false =
      (.ok none, clientTok, 1)
  ∧ executeRTRCommand clientTok 0 oauthOk apiEmptyRTRCommand "sess-1" "ls"
      "ls" = (.ok none, clientTok, 1)
  ∧ executeRTRActiveResponderCommand clientTok 0 oauthOk apiEmptyRTRCommand
      "sess-1" "rm" "rm x" = (.ok none, clientTok, 1) :=
  ⟨rfl, rfl, rfl, rfl, rfl, rfl, rfl⟩
